import Mathlib

/-!
# Verification of the BIMIBOX_FRONT calibration / sync / path core

Shallow embedding of the numerical core of the repository:

* `src/lib/kalman_filter.js`        — `KalmanFilter3D`
* `src/store/syncStore.js`          — pose-sync store actions
* `src/lib/pano_helpers.js`         — path conditioning helpers
* `src/utils/calibratePanoToForge`  — SVD calibration + position transforms
* `src/lib/forge_helpers.js`        — `computeTransform` (Umeyama solver)
* `src/utils/camera_transformation` — quaternion pipeline and boundary guard
  (source reproduced verbatim in the repository README)

JavaScript numbers are modelled as exact rationals (`ℚ`) where the code
performs only field operations, and as real numbers (`ℝ`) where square
roots occur (`Math.hypot`, `Math.sqrt`).  External library calls that
produce an SVD factorisation are modelled as explicit parameters, with
the defining properties of an SVD stated as hypotheses where needed.
-/

/-- A 3-component vector, mirroring the JS `[x, y, z]` arrays and
`{x, y, z}` objects used throughout the code. -/
structure V3 (α : Type) where
  x : α
  y : α
  z : α
deriving DecidableEq, Repr

/-- A quaternion `[x, y, z, w]` as used by the JS code. -/
structure Q4 (α : Type) where
  x : α
  y : α
  z : α
  w : α
deriving DecidableEq, Repr

/-! ## Kalman filter (`src/lib/kalman_filter.js`) -/

/-- State of `KalmanFilter3D`: per-axis estimate `x`, per-axis covariance
`p`, the two noise scalars and the `initd` flag. -/
structure KalmanFilter3D where
  processNoise : ℚ
  measurementNoise : ℚ
  x : V3 ℚ
  p : V3 ℚ
  initd : Bool
deriving DecidableEq, Repr

/-- `new KalmanFilter3D(pn, mn)` (constructor defaults `pn = 1e-3`,
`mn = 1e-2`). -/
def KalmanFilter3D.mk' (pn : ℚ := 1/1000) (mn : ℚ := 1/100) : KalmanFilter3D :=
  { processNoise := pn, measurementNoise := mn
    x := ⟨0, 0, 0⟩, p := ⟨1, 1, 1⟩, initd := false }

/-- `init(m)`: copies the measurement into the state, resets covariance. -/
def KalmanFilter3D.init (f : KalmanFilter3D) (m : V3 ℚ) : KalmanFilter3D :=
  { f with x := m, p := ⟨1, 1, 1⟩, initd := true }

/-- `update(m)`: lazily initialises, then performs the predict/correct
step per axis and returns the new estimate together with the new filter
state (the JS method mutates `this` and returns `{...this.x}`). -/
def KalmanFilter3D.update (f : KalmanFilter3D) (m : V3 ℚ) :
    V3 ℚ × KalmanFilter3D :=
  let f := if !f.initd then f.init m else f
  let p : V3 ℚ := ⟨f.p.x + f.processNoise, f.p.y + f.processNoise,
                   f.p.z + f.processNoise⟩
  let kx := p.x / (p.x + f.measurementNoise)
  let ky := p.y / (p.y + f.measurementNoise)
  let kz := p.z / (p.z + f.measurementNoise)
  let x : V3 ℚ := ⟨f.x.x + kx * (m.x - f.x.x), f.x.y + ky * (m.y - f.x.y),
                   f.x.z + kz * (m.z - f.x.z)⟩
  let p' : V3 ℚ := ⟨(1 - kx) * p.x, (1 - ky) * p.y, (1 - kz) * p.z⟩
  (x, { f with x := x, p := p' })

/-! ## Pose-sync store (`src/store/syncStore.js`)

The zustand store is modelled as a state record plus pure transition
functions.  `Date.now()` is passed explicitly as `now`.  Fields holding
functions (`panoJumpRequest`) or external data (`pathPoints`,
`calibration`, `floorClick` payload) do not participate in any action
modelled here and are omitted; all fields written or read by the
`smoothSync*` actions are present. -/

/-- Which viewer produced the last accepted update (`source` field,
`'pano' | 'forge' | null` — `null` is `Option.none`). -/
inductive SyncSource
  | pano
  | forge
deriving DecidableEq, Repr

/-- A target pose `{ pos, quat }`. -/
structure TargetPose where
  pos : V3 ℚ
  quat : Q4 ℚ
deriving DecidableEq, Repr

/-- A camera record `{ pos: [x,y,z], quat: [x,y,z,w] }`. -/
structure CamPose where
  pos : V3 ℚ
  quat : Q4 ℚ
deriving DecidableEq, Repr

/-- The store state created by `create(subscribeWithSelector(...))`. -/
structure SyncStoreState where
  panoCam : CamPose
  forgeCam : CamPose
  panoPosition : V3 ℚ
  forgePosition : V3 ℚ
  targetPanoPose : Option TargetPose
  targetForgePose : Option TargetPose
  isAnimating : Bool
  syncStartTime : ℚ
  isSyncing : Bool
  source : Option SyncSource
  lastSyncTime : ℚ
  syncInProgress : Bool
  syncCount : ℕ
  isUserInitiated : Bool
  floorClickSeq : ℕ
  frameIdx : ℕ
  currentPanoIndex : ℕ
deriving DecidableEq, Repr

/-- `vectorEqual(v1, v2, tolerance = 0.001)` on two *arrays* — the
genuine componentwise closeness test (as the legacy `fromPanoCam` /
`fromForgeCam` publishers use it, array against array).  JS booleans are
modelled as decidable propositions; both arguments are present at every
call modelled here, so the `!v1 || !v2` guard is omitted. -/
def vectorEqual (v1 v2 : V3 ℚ) (tolerance : ℚ := 1/1000) : Prop :=
  |v1.x - v2.x| < tolerance ∧ |v1.y - v2.y| < tolerance ∧
    |v1.z - v2.z| < tolerance

instance (v1 v2 : V3 ℚ) (t : ℚ) : Decidable (vectorEqual v1 v2 t) :=
  inferInstanceAs (Decidable (_ ∧ _ ∧ _))

/-- JS numeric indexing `o[i]` on a plain `{x, y, z}` object: the object
has no properties `0`, `1`, `2`, so the access yields `undefined`
whatever the object's fields hold.  The store's `panoPosition` /
`forgePosition` are such objects (`{ x: 0, y: 0, z: 0 }` initially and
only ever replaced through `set({...Position: {x, y, z}})` writes). -/
def posObjIndex (o : V3 ℚ) (i : ℕ) : Option ℚ := none

/-- `Math.abs(a - b) < tolerance` where `b` may be `undefined`:
`a - undefined` is `NaN`, `Math.abs(NaN)` is `NaN`, and every `<`
comparison against `NaN` is false. -/
def absLtTol (a : ℚ) (b : Option ℚ) (tolerance : ℚ) : Prop :=
  match b with
  | none => False
  | some b => |a - b| < tolerance

instance : ∀ (a : ℚ) (b : Option ℚ) (t : ℚ), Decidable (absLtTol a b t)
  | _, none, _ => isFalse fun h => h
  | a, some b, t => inferInstanceAs (Decidable (|a - b| < t))

/-- `vectorEqual(v1, v2, tolerance = 0.001)` as `smoothSyncPano` /
`smoothSyncForge` actually invoke it: `v1` is the incoming position
*array* but `v2` is the stored `panoPosition` / `forgePosition`
`{x, y, z}` *object*, so each `v2[i]` is `undefined` and each conjunct
is a comparison against `NaN`. -/
def vectorEqualArrObj (v1 : V3 ℚ) (o : V3 ℚ) (tolerance : ℚ := 1/1000) :
    Prop :=
  absLtTol v1.x (posObjIndex o 0) tolerance ∧
    absLtTol v1.y (posObjIndex o 1) tolerance ∧
    absLtTol v1.z (posObjIndex o 2) tolerance

instance (v1 o : V3 ℚ) (t : ℚ) : Decidable (vectorEqualArrObj v1 o t) :=
  inferInstanceAs (Decidable (_ ∧ _ ∧ _))

/-- `quatEqual(q1, q2, tolerance = 0.01)` — array against array both in
the legacy publishers and in `smoothSync*` (the stored `panoCam.quat` /
`forgeCam.quat` are arrays). -/
def quatEqual (q1 q2 : Q4 ℚ) (tolerance : ℚ := 1/100) : Prop :=
  |q1.x - q2.x| < tolerance ∧ |q1.y - q2.y| < tolerance ∧
    |q1.z - q2.z| < tolerance ∧ |q1.w - q2.w| < tolerance

instance (q1 q2 : Q4 ℚ) (t : ℚ) : Decidable (quatEqual q1 q2 t) :=
  inferInstanceAs (Decidable (_ ∧ _ ∧ _ ∧ _))

/-- The initial store state (literal field initialisers in the store). -/
def initialSyncStoreState : SyncStoreState where
  panoCam :=
    { pos := ⟨12246467991473532/(10^32 : ℚ), -14142135623730951/(10^15 : ℚ),
              2314213562373095/(10^14 : ℚ)⟩
      quat := ⟨0, 1, 0, 6123233995736766/(10^32 : ℚ)⟩ }
  forgeCam := { pos := ⟨696/10, 936/10, 591/100⟩
                quat := ⟨0, 7071/10000, 0, 7071/10000⟩ }
  panoPosition := ⟨0, 0, 0⟩
  forgePosition := ⟨0, 0, 0⟩
  targetPanoPose := none
  targetForgePose := none
  isAnimating := false
  syncStartTime := 0
  isSyncing := false
  source := none
  lastSyncTime := 0
  syncInProgress := false
  syncCount := 0
  isUserInitiated := false
  floorClickSeq := 0
  frameIdx := 0
  currentPanoIndex := 0

/-- `smoothSyncPano(pos, quat)`: returns early (no-op) when `changed =
!vectorEqual(pos, panoPosition) || !quatEqual(quat, panoCam.quat)` is
false; otherwise installs the new target pose, restarts the animation
clock and stamps `source: 'pano'`, `lastSyncTime` and `syncCount + 1`.
The position half of the guard is the array-against-object comparison
`vectorEqualArrObj` (see there).  (The `requestAnimationFrame` restart
drives rendering only and touches no store field.) -/
def smoothSyncPano (pos : V3 ℚ) (quat : Q4 ℚ) (now : ℚ)
    (s : SyncStoreState) : SyncStoreState :=
  if ¬ (¬ vectorEqualArrObj pos s.panoPosition
        ∨ ¬ quatEqual quat s.panoCam.quat)
  then s
  else
    { s with targetPanoPose := some ⟨pos, quat⟩, isAnimating := true
             syncStartTime := now, source := some .pano, lastSyncTime := now
             syncCount := s.syncCount + 1 }

/-- `smoothSyncForge(pos, quat)`: mirror image of `smoothSyncPano`,
against `forgePosition` (an `{x, y, z}` object likewise) and
`forgeCam.quat`. -/
def smoothSyncForge (pos : V3 ℚ) (quat : Q4 ℚ) (now : ℚ)
    (s : SyncStoreState) : SyncStoreState :=
  if ¬ (¬ vectorEqualArrObj pos s.forgePosition
        ∨ ¬ quatEqual quat s.forgeCam.quat)
  then s
  else
    { s with targetForgePose := some ⟨pos, quat⟩, isAnimating := true
             syncStartTime := now, source := some .forge, lastSyncTime := now
             syncCount := s.syncCount + 1 }


/-! ## Path conditioning (`src/lib/pano_helpers.js`)

These helpers use `Math.hypot`, so points live in `ℝ`.  `Math.random()`
is modelled by an explicit stream `rand : ℕ → V3 ℝ` supplying the three
`Math.random() - .5` draws used for the `k`-th coincident pair. -/

noncomputable section

/-- `Math.hypot(dx, dy, dz)`. -/
def hypot3 (dx dy dz : ℝ) : ℝ := Real.sqrt (dx ^ 2 + dy ^ 2 + dz ^ 2)

/-- Distance between consecutive path points, as computed in
`fixOverlappingPoints`. -/
def ptDist (p q : V3 ℝ) : ℝ := hypot3 (q.x - p.x) (q.y - p.y) (q.z - p.z)

/-- The loop of `fixOverlappingPoints`.  State: `k` counts consumed
random draws, `accRev` is the `fixed` array without its last element
(reversed), `prev` is `fixed[fixed.length - 1]`. -/
def fixGo (minDist : ℝ) (rand : ℕ → V3 ℝ) :
    ℕ → List (V3 ℝ) → V3 ℝ → List (V3 ℝ) → List (V3 ℝ)
  | _, accRev, prev, [] => (prev :: accRev).reverse
  | k, accRev, prev, curr :: rest =>
    let d := ptDist prev curr
    if d < minDist then
      let dir : V3 ℝ :=
        if d < 1/1000000 then rand k
        else ⟨(curr.x - prev.x) / d, (curr.y - prev.y) / d, (curr.z - prev.z) / d⟩
      let k' := if d < 1/1000000 then k + 1 else k
      let mid : V3 ℝ := ⟨(prev.x + curr.x) / 2, (prev.y + curr.y) / 2,
                         (prev.z + curr.z) / 2⟩
      let h := minDist / 2
      fixGo minDist rand k'
        (⟨mid.x - dir.x * h, mid.y - dir.y * h, mid.z - dir.z * h⟩ :: accRev)
        ⟨mid.x + dir.x * h, mid.y + dir.y * h, mid.z + dir.z * h⟩ rest
    else
      fixGo minDist rand k (prev :: accRev) curr rest

/-- `fixOverlappingPoints(points, minDist = 0.05)`. -/
def fixOverlappingPoints (rand : ℕ → V3 ℝ) (points : List (V3 ℝ))
    (minDist : ℝ := 1/20) : List (V3 ℝ) :=
  if points.length < 2 then points
  else
    match points with
    | [] => points
    | p :: rest => fixGo minDist rand 0 [] p rest

/-- The minimum-separation invariant: no two consecutive points of the
list are closer than `minDist`. -/
def consecutiveSepOK (minDist : ℝ) (points : List (V3 ℝ)) : Prop :=
  points.Chain' fun p q => minDist ≤ ptDist p q

/-- A deterministic stand-in for the random stream (never consulted by
the concrete inputs used below, whose pairs are never coincident). -/
def randZero : ℕ → V3 ℝ := fun _ => ⟨0, 0, 0⟩

/-- Three collinear sample points `0.04` apart — closer than the default
`0.05` threshold. -/
def overlapCexPoints : List (V3 ℝ) := [⟨0, 0, 0⟩, ⟨1/25, 0, 0⟩, ⟨2/25, 0, 0⟩]

/-- `transpose(M)` on row-major matrices (`M[0].map((_, i) => M.map(r => r[i]))`;
out-of-range accesses do not occur at the call sites modelled here). -/
def transposeM (M : List (List ℝ)) : List (List ℝ) :=
  match M with
  | [] => []
  | r0 :: _ => (List.range r0.length).map fun i => M.map fun r => r.getD i 0

/-- `multiply(A, B)`: the `A.length × B[0].length` product with the inner
sum running over `k < B.length`. -/
def multiplyM (A B : List (List ℝ)) : List (List ℝ) :=
  A.map fun row =>
    (List.range (B.headD []).length).map fun j =>
      ((List.range B.length).map fun k =>
        row.getD k 0 * (B.getD k []).getD j 0).sum

/-- One outer iteration (`i`) of the Gauss–Jordan loop in `invert`:
`diag` falls back to `1e-12` when `A[i][i]` is `0` (the `|| 1e-12`) or
smaller than `1e-12` in magnitude, row `i` is scaled by `1/diag`, and
every other row `k` is reduced by `f = A[k][i]` times row `i`. -/
def invStep (st : List (List ℝ) × List (List ℝ)) (i : ℕ) :
    List (List ℝ) × List (List ℝ) :=
  let A := st.1
  let I := st.2
  let aii := (A.getD i []).getD i 0
  let diag := if |aii| < 1/10^12 then 1/10^12 else aii
  let A1 := A.set i ((A.getD i []).map (· / diag))
  let I1 := I.set i ((I.getD i []).map (· / diag))
  let rowA := A1.getD i []
  let rowI := I1.getD i []
  let A2 := A1.mapIdx fun k row =>
    if k = i then row
    else
      let f := row.getD i 0
      (List.range row.length).map fun j => row.getD j 0 - f * rowA.getD j 0
  let I2 := I1.mapIdx fun k row =>
    if k = i then row
    else
      let f := (A1.getD k []).getD i 0
      (List.range row.length).map fun j => row.getD j 0 - f * rowI.getD j 0
  (A2, I2)

/-- `invert(M)`: Gauss–Jordan elimination with the `1e-12` pivot
fallback; returns the accumulated identity block. -/
def invertM (M : List (List ℝ)) : List (List ℝ) :=
  let n := M.length
  if n = 0 then []
  else
    let I0 := (List.range n).map fun i =>
      (List.range n).map fun j => if i = j then (1 : ℝ) else 0
    ((List.range n).foldl invStep (M, I0)).2

/-- `savitzkyGolay(points, windowSize = 11, polyOrder = 3)`.  The JS
`try`/`catch` never fires — `transpose`/`multiply`/`invert` are total —
so only the `try` branch is modelled. -/
def savitzkyGolay (points : List (V3 ℝ)) (windowSize : ℕ := 11)
    (polyOrder : ℕ := 3) : List (V3 ℝ) :=
  if points.length = 0 then []
  else
    let ws := if windowSize % 2 = 0 then windowSize + 1 else windowSize
    let half := ws / 2
    let n := points.length
    let A := (List.range (2 * half + 1)).map fun (t : ℕ) =>
      (List.range (polyOrder + 1)).map fun j => ((t : ℝ) - half) ^ j
    let AT := transposeM A
    let ATA := multiplyM AT A
    let ATAinv := invertM ATA
    let basis := multiplyM (multiplyM A ATAinv) AT
    let coeffs := basis.getD half []
    (List.range n).map fun (i : ℕ) =>
      let terms := (List.range (2 * half + 1)).map fun (t : ℕ) =>
        let idx := (min (max ((i : ℤ) + t - half) 0) ((n : ℤ) - 1)).toNat
        let w := coeffs.getD t 0
        let p := points.getD idx ⟨0, 0, 0⟩
        (⟨w * p.x, w * p.y, w * p.z⟩ : V3 ℝ)
      ⟨(terms.map V3.x).sum, (terms.map V3.y).sum, (terms.map V3.z).sum⟩

end

/-! ## Calibration solvers and position transforms

`src/utils/calibratePanoToForge` (part_001) and
`src/lib/forge_helpers.js` (part_003).  3×3 matrices get a dedicated
structure mirroring the row-major JS arrays; the external SVD libraries
(`ml-matrix` / `numeric.svd`) are modelled by passing the factors
`U`, `Σ`, `V` as parameters, with the defining SVD properties stated as
hypotheses in the theorems that need them. -/

/-- A 3×3 real matrix, row-major (`m[row][col]` is `m<row><col>`). -/
structure Mat3 where
  m00 : ℝ
  m01 : ℝ
  m02 : ℝ
  m10 : ℝ
  m11 : ℝ
  m12 : ℝ
  m20 : ℝ
  m21 : ℝ
  m22 : ℝ

noncomputable section

def Mat3.transpose (A : Mat3) : Mat3 :=
  ⟨A.m00, A.m10, A.m20, A.m01, A.m11, A.m21, A.m02, A.m12, A.m22⟩

def Mat3.mul (A B : Mat3) : Mat3 :=
  ⟨A.m00 * B.m00 + A.m01 * B.m10 + A.m02 * B.m20,
   A.m00 * B.m01 + A.m01 * B.m11 + A.m02 * B.m21,
   A.m00 * B.m02 + A.m01 * B.m12 + A.m02 * B.m22,
   A.m10 * B.m00 + A.m11 * B.m10 + A.m12 * B.m20,
   A.m10 * B.m01 + A.m11 * B.m11 + A.m12 * B.m21,
   A.m10 * B.m02 + A.m11 * B.m12 + A.m12 * B.m22,
   A.m20 * B.m00 + A.m21 * B.m10 + A.m22 * B.m20,
   A.m20 * B.m01 + A.m21 * B.m11 + A.m22 * B.m21,
   A.m20 * B.m02 + A.m21 * B.m12 + A.m22 * B.m22⟩

/-- `numeric.dot(rotation, point)` — matrix · column vector. -/
def Mat3.mulVec (A : Mat3) (v : V3 ℝ) : V3 ℝ :=
  ⟨A.m00 * v.x + A.m01 * v.y + A.m02 * v.z,
   A.m10 * v.x + A.m11 * v.y + A.m12 * v.z,
   A.m20 * v.x + A.m21 * v.y + A.m22 * v.z⟩

/-- `numeric.det` on a 3×3 matrix. -/
def Mat3.det (A : Mat3) : ℝ :=
  A.m00 * (A.m11 * A.m22 - A.m12 * A.m21) -
    A.m01 * (A.m10 * A.m22 - A.m12 * A.m20) +
    A.m02 * (A.m10 * A.m21 - A.m11 * A.m20)

def Mat3.one : Mat3 := ⟨1, 0, 0, 0, 1, 0, 0, 0, 1⟩

def Mat3.diag (a b c : ℝ) : Mat3 := ⟨a, 0, 0, 0, b, 0, 0, 0, c⟩

/-- `V.setColumn(2, V.getColumn(2).map(x => -x))`. -/
def Mat3.flipCol2 (A : Mat3) : Mat3 :=
  ⟨A.m00, A.m01, -A.m02, A.m10, A.m11, -A.m12, A.m20, A.m21, -A.m22⟩

/-- Bridge to the Mathlib matrix type (used only to borrow general
matrix algebra such as `mul_eq_one_comm` and `det_mul`). -/
def Mat3.toMatrix (A : Mat3) : Matrix (Fin 3) (Fin 3) ℝ :=
  Matrix.of ![![A.m00, A.m01, A.m02], ![A.m10, A.m11, A.m12],
              ![A.m20, A.m21, A.m22]]

/-- Elementwise accumulation `acc.map((v, i) => v + p[i])` used by the
centroid `reduce`s. -/
def sumV3 (l : List (V3 ℝ)) : V3 ℝ :=
  l.foldl (fun acc p => ⟨acc.x + p.x, acc.y + p.y, acc.z + p.z⟩) ⟨0, 0, 0⟩

/-- Centroid: componentwise sum divided by `n`. -/
def centroidOf (l : List (V3 ℝ)) (n : ℝ) : V3 ℝ :=
  ⟨(sumV3 l).x / n, (sumV3 l).y / n, (sumV3 l).z / n⟩

/-- `Σ p[0]*p[0] + p[1]*p[1] + p[2]*p[2]` over a point list. -/
def sumSq (l : List (V3 ℝ)) : ℝ :=
  l.foldl (fun sum p => sum + (p.x * p.x + p.y * p.y + p.z * p.z)) 0

/-- The cross-covariance accumulation `H[row][col] += snd[i][col] *
fst[i][row]` over paired centered clouds, i.e. `Σᵢ fstᵢ ⊗ sndᵢ`.  Both
solvers build exactly this (part_001 with `fst = revitCentered`,
`snd = panoCentered`; part_003 with `fst = aᵢ`, `snd = bᵢ`). -/
def covSum (fst snd : List (V3 ℝ)) : Mat3 :=
  (fst.zip snd).foldl
    (fun H ab =>
      ⟨H.m00 + ab.1.x * ab.2.x, H.m01 + ab.1.x * ab.2.y, H.m02 + ab.1.x * ab.2.z,
       H.m10 + ab.1.y * ab.2.x, H.m11 + ab.1.y * ab.2.y, H.m12 + ab.1.y * ab.2.z,
       H.m20 + ab.1.z * ab.2.x, H.m21 + ab.1.z * ab.2.y, H.m22 + ab.1.z * ab.2.z⟩)
    ⟨0, 0, 0, 0, 0, 0, 0, 0, 0⟩

/-- `[-p[0], p[1], p[2]]` — the X-axis flip applied to pano points. -/
def flipX (p : V3 ℝ) : V3 ℝ := ⟨-p.x, p.y, p.z⟩

/-- The covariance matrix `H` that `calculateCalibration` hands to the
SVD library, reconstructed from the raw inputs (flip, centroids,
centering, accumulation) for stating SVD-validity hypotheses. -/
def calibH (panoRefs revitRefs : List (V3 ℝ)) : Mat3 :=
  let n : ℝ := panoRefs.length
  let panoRefsFlipped := panoRefs.map flipX
  let panoCentroid := centroidOf panoRefsFlipped n
  let revitCentroid := centroidOf revitRefs n
  let panoCentered := panoRefsFlipped.map fun p =>
    (⟨p.x - panoCentroid.x, p.y - panoCentroid.y, p.z - panoCentroid.z⟩ : V3 ℝ)
  let revitCentered := revitRefs.map fun p =>
    (⟨p.x - revitCentroid.x, p.y - revitCentroid.y, p.z - revitCentroid.z⟩ : V3 ℝ)
  covSum revitCentered panoCentered

/-- The record returned by `calculateCalibration`: `rotation` is the
row-major 2D array (the *transpose* of the `ml-matrix` object
`rotationMatrix`, per the `✅ FIX` extraction), and both are returned. -/
structure Calibration where
  scale : ℝ
  rotation : Mat3
  rotationMatrix : Mat3
  translation : V3 ℝ
  maxError : ℝ
  meanError : ℝ

/-- `calculateCalibration(panoRefs, revitRefs)` (part_001), with the SVD
factors `svdU = svd.leftSingularVectors`, `svdV =
svd.rightSingularVectors` of `H` supplied by the caller.  `Math.max()`
over the (nonnegative) error list is modelled with initial value `0`. -/
def calculateCalibration (panoRefs revitRefs : List (V3 ℝ))
    (svdU svdV : Mat3) : Calibration :=
  let n : ℝ := panoRefs.length
  let panoRefsFlipped := panoRefs.map flipX
  let panoCentroid := centroidOf panoRefsFlipped n
  let revitCentroid := centroidOf revitRefs n
  let panoCentered := panoRefsFlipped.map fun p =>
    (⟨p.x - panoCentroid.x, p.y - panoCentroid.y, p.z - panoCentroid.z⟩ : V3 ℝ)
  let revitCentered := revitRefs.map fun p =>
    (⟨p.x - revitCentroid.x, p.y - revitCentroid.y, p.z - revitCentroid.z⟩ : V3 ℝ)
  let panoRMS := Real.sqrt (sumSq panoCentered / n)
  let revitRMS := Real.sqrt (sumSq revitCentered / n)
  let scale := revitRMS / panoRMS
  let rotationMatrix0 := svdV.mul svdU.transpose
  let rotation0 := rotationMatrix0.transpose
  let rotationMatrix :=
    if rotation0.det < 0 then (svdV.flipCol2).mul svdU.transpose
    else rotationMatrix0
  let rotation :=
    if rotation0.det < 0 then ((svdV.flipCol2).mul svdU.transpose).transpose
    else rotation0
  let translation : V3 ℝ :=
    ⟨revitCentroid.x - scale * (rotation.m00 * panoCentroid.x +
        rotation.m01 * panoCentroid.y + rotation.m02 * panoCentroid.z),
     revitCentroid.y - scale * (rotation.m10 * panoCentroid.x +
        rotation.m11 * panoCentroid.y + rotation.m12 * panoCentroid.z),
     revitCentroid.z - scale * (rotation.m20 * panoCentroid.x +
        rotation.m21 * panoCentroid.y + rotation.m22 * panoCentroid.z)⟩
  let errors := (panoRefsFlipped.zip revitRefs).map fun pr =>
    let t : V3 ℝ :=
      ⟨scale * (rotation.m00 * pr.1.x + rotation.m01 * pr.1.y +
          rotation.m02 * pr.1.z) + translation.x,
       scale * (rotation.m10 * pr.1.x + rotation.m11 * pr.1.y +
          rotation.m12 * pr.1.z) + translation.y,
       scale * (rotation.m20 * pr.1.x + rotation.m21 * pr.1.y +
          rotation.m22 * pr.1.z) + translation.z⟩
    Real.sqrt ((pr.2.x - t.x) ^ 2 + (pr.2.y - t.y) ^ 2 + (pr.2.z - t.z) ^ 2)
  { scale := scale
    rotation := rotation
    rotationMatrix := rotationMatrix
    translation := translation
    maxError := errors.foldl max 0
    meanError := errors.foldl (· + ·) 0 / n }

/-- `panoToForge(panoPoint, calibration)`: flip X, rotate by the
row-major `rotation`, scale, translate. -/
def panoToForge (panoPoint : V3 ℝ) (calibration : Calibration) : V3 ℝ :=
  let flippedPoint : V3 ℝ := ⟨-panoPoint.x, panoPoint.y, panoPoint.z⟩
  let rotated := calibration.rotation.mulVec flippedPoint
  ⟨calibration.scale * rotated.x + calibration.translation.x,
   calibration.scale * rotated.y + calibration.translation.y,
   calibration.scale * rotated.z + calibration.translation.z⟩

/-- `forgeToPano(forgePoint, calibration)`: subtract the translation,
apply `rotationMatrix.transpose()`, divide by the scale, flip X back. -/
def forgeToPano (forgePoint : V3 ℝ) (calibration : Calibration) : V3 ℝ :=
  let forgeVec : V3 ℝ :=
    ⟨forgePoint.x - calibration.translation.x,
     forgePoint.y - calibration.translation.y,
     forgePoint.z - calibration.translation.z⟩
  let panoVec : V3 ℝ :=
    ⟨(calibration.rotationMatrix.transpose.mulVec forgeVec).x * (1 / calibration.scale),
     (calibration.rotationMatrix.transpose.mulVec forgeVec).y * (1 / calibration.scale),
     (calibration.rotationMatrix.transpose.mulVec forgeVec).z * (1 / calibration.scale)⟩
  ⟨-panoVec.x, panoVec.y, panoVec.z⟩

/-- The record returned by `computeTransform` (part_003); `M` is the
column-major `Matrix4.toArray()` of the 4×4 similarity matrix. -/
structure ComputeTransformResult where
  R : Mat3
  scale : ℝ
  t : V3 ℝ
  M : List ℝ
  centroidA : V3 ℝ
  centroidB : V3 ℝ

/-- `computeTransform(revitPoints, panoPoints)` (part_003), SVD factors
supplied as parameters (`svdS` holds the singular values `svd.S`);
`numericLoaded` models the `window.numeric` environment guard.  Throws
are modelled with `Except.error`. -/
def computeTransform (revitPoints panoPoints : List (V3 ℝ)) (svdU : Mat3)
    (svdS : V3 ℝ) (svdV : Mat3) (numericLoaded : Bool := true) :
    Except String ComputeTransformResult :=
  if revitPoints.length ≠ panoPoints.length ∨ revitPoints.length < 3 then
    .error "Need at least 3 matching points"
  else if !numericLoaded then .error "numeric.js not loaded"
  else
    let n : ℝ := revitPoints.length
    let centroidA := centroidOf revitPoints n
    let centroidB := centroidOf panoPoints n
    let aCentered := revitPoints.map fun p =>
      (⟨p.x - centroidA.x, p.y - centroidA.y, p.z - centroidA.z⟩ : V3 ℝ)
    let bCentered := panoPoints.map fun p =>
      (⟨p.x - centroidB.x, p.y - centroidB.y, p.z - centroidB.z⟩ : V3 ℝ)
    let S := if svdU.det * svdV.det < 0 then Mat3.diag 1 1 (-1) else Mat3.one
    let R := (svdU.mul S).mul svdV.transpose
    let traceSigma := svdS.x + svdS.y + svdS.z
    let sumSqB := sumSq bCentered
    let scale := traceSigma / (sumSqB + 1/10^12)
    let t : V3 ℝ :=
      ⟨centroidA.x - (R.mulVec ⟨scale * centroidB.x, scale * centroidB.y,
          scale * centroidB.z⟩).x,
       centroidA.y - (R.mulVec ⟨scale * centroidB.x, scale * centroidB.y,
          scale * centroidB.z⟩).y,
       centroidA.z - (R.mulVec ⟨scale * centroidB.x, scale * centroidB.y,
          scale * centroidB.z⟩).z⟩
    .ok
      { R := R
        scale := scale
        t := t
        M := [scale * R.m00, scale * R.m10, scale * R.m20, 0,
              scale * R.m01, scale * R.m11, scale * R.m21, 0,
              scale * R.m02, scale * R.m12, scale * R.m22, 0,
              t.x, t.y, t.z, 1]
        centroidA := centroidA
        centroidB := centroidB }

/-- The covariance matrix `H = Σ aᵢ bᵢᵀ` that `computeTransform` hands
to `numeric.svd`, reconstructed from the raw inputs. -/
def computeTransformH (revitPoints panoPoints : List (V3 ℝ)) : Mat3 :=
  let n : ℝ := revitPoints.length
  let centroidA := centroidOf revitPoints n
  let centroidB := centroidOf panoPoints n
  let aCentered := revitPoints.map fun p =>
    (⟨p.x - centroidA.x, p.y - centroidA.y, p.z - centroidA.z⟩ : V3 ℝ)
  let bCentered := panoPoints.map fun p =>
    (⟨p.x - centroidB.x, p.y - centroidB.y, p.z - centroidB.z⟩ : V3 ℝ)
  covSum aCentered bCentered

/-- `Q`: rotation by 90° about the z-axis — the exact similarity
relating the two concrete reference clouds below. -/
def Qrot : Mat3 := ⟨0, -1, 0, 1, 0, 0, 0, 0, 1⟩

/-- Six pano reference points whose X-flip is `±e₁, ±e₂, ±e₃`. -/
def c1PanoRefs : List (V3 ℝ) :=
  [⟨-1, 0, 0⟩, ⟨1, 0, 0⟩, ⟨0, 1, 0⟩, ⟨0, -1, 0⟩, ⟨0, 0, 1⟩, ⟨0, 0, -1⟩]

/-- The same cloud rotated by `Qrot` — an exact, noise-free
correspondence set (scale 1, rotation `Qrot`, translation 0). -/
def c1RevitRefs : List (V3 ℝ) :=
  [⟨0, 1, 0⟩, ⟨0, -1, 0⟩, ⟨-1, 0, 0⟩, ⟨1, 0, 0⟩, ⟨0, 0, 1⟩, ⟨0, 0, -1⟩]

/-- The calibration produced on that set (its `H = 2·Qrot`, so
`U = Qrot`, `Σ = diag(2,2,2)`, `V = 1` is a valid SVD). -/
def c1Calib : Calibration :=
  calculateCalibration c1PanoRefs c1RevitRefs Qrot Mat3.one

/-- The flipped pano cloud stretched by `diag(2,1,1)`: a correspondence
set with anisotropic spread (`H = diag(4,2,2)`, `U = V = 1`). -/
def c2RevitRefs : List (V3 ℝ) :=
  [⟨2, 0, 0⟩, ⟨-2, 0, 0⟩, ⟨0, 1, 0⟩, ⟨0, -1, 0⟩, ⟨0, 0, 1⟩, ⟨0, 0, -1⟩]

/-- A two-pair correspondence set (fewer than the required three). -/
def c6PanoRefs : List (V3 ℝ) := [⟨-1, 0, 0⟩, ⟨1, 0, 0⟩]

/-- Its targets, twice as far apart (`H = diag(4,0,0)`, `U = V = 1`). -/
def c6RevitRefs : List (V3 ℝ) := [⟨2, 0, 0⟩, ⟨-2, 0, 0⟩]

end

/-- The `±` basis cloud, used directly (unflipped) as `panoPoints` for
`computeTransform`. -/
def c5PanoPoints : List (V3 ℝ) :=
  [⟨1, 0, 0⟩, ⟨-1, 0, 0⟩, ⟨0, 1, 0⟩, ⟨0, -1, 0⟩, ⟨0, 0, 1⟩, ⟨0, 0, -1⟩]

/-- A point cloud centered on its own centroid (with explicit `n`), as
both solvers compute it. -/
noncomputable def centeredCloud (pts : List (V3 ℝ)) (n : ℝ) : List (V3 ℝ) :=
  pts.map fun p =>
    (⟨p.x - (centroidOf pts n).x, p.y - (centroidOf pts n).y,
      p.z - (centroidOf pts n).z⟩ : V3 ℝ)

/-! ## Quaternion orientation pipeline

`src/utils/camera_transformation` (source reproduced in the repository
README; imported and applied by the ForgeViewer in part_005). -/

noncomputable section

/-- `qMul([x1,y1,z1,w1], [x2,y2,z2,w2])` — Hamilton product. -/
def qMul (q1 q2 : Q4 ℝ) : Q4 ℝ :=
  ⟨q1.w * q2.x + q1.x * q2.w + q1.y * q2.z - q1.z * q2.y,
   q1.w * q2.y - q1.x * q2.z + q1.y * q2.w + q1.z * q2.x,
   q1.w * q2.z + q1.x * q2.y - q1.y * q2.x + q1.z * q2.w,
   q1.w * q2.w - q1.x * q2.x - q1.y * q2.y - q1.z * q2.z⟩

/-- `qNormalize`: divide by `Math.hypot(x, y, z, w)`. -/
def qNormalize (q : Q4 ℝ) : Q4 ℝ :=
  let m := Real.sqrt (q.x ^ 2 + q.y ^ 2 + q.z ^ 2 + q.w ^ 2)
  ⟨q.x / m, q.y / m, q.z / m, q.w / m⟩

/-- `qInverse`: conjugate over the squared length. -/
def qInverse (q : Q4 ℝ) : Q4 ℝ :=
  let len2 := q.x * q.x + q.y * q.y + q.z * q.z + q.w * q.w
  ⟨-q.x / len2, -q.y / len2, -q.z / len2, q.w / len2⟩

/-- The hard-coded calibration quaternion. -/
def QUAT_TRANSFORM : Q4 ℝ :=
  ⟨66681372/10^8, -9451034/10^8, -199205/10^8, 73920450/10^8⟩

/-- `[Math.SQRT1_2, 0, 0, Math.SQRT1_2]` — the fixed +90° pitch. -/
def Q_PITCH_DOWN_90 : Q4 ℝ := ⟨Real.sqrt (1/2), 0, 0, Real.sqrt (1/2)⟩

/-- `[0, 0, 1, 0]` — 180° about the vertical (z) axis. -/
def Q_180_Z : Q4 ℝ := ⟨0, 0, 1, 0⟩

/-- `transformQuaternion(x, y, z, w)`. -/
def transformQuaternion (q : Q4 ℝ) : Q4 ℝ := qNormalize (qMul QUAT_TRANSFORM q)

/-- `transformQuaternionMirrored(x, y, z, w)`. -/
def transformQuaternionMirrored (q : Q4 ℝ) : Q4 ℝ :=
  qNormalize (qMul Q_180_Z (transformQuaternion q))

/-- `forgeToPanoQuaternion(qx, qy, qz, qw)` — the reverse pipeline,
which applies `QT⁻¹` first, then the inverse pitch, then the inverse
z-flip. -/
def forgeToPanoQuaternion (q : Q4 ℝ) : Q4 ℝ :=
  let step1 := qNormalize (qMul (qInverse QUAT_TRANSFORM) q)
  let step2 := qNormalize (qMul (qInverse Q_PITCH_DOWN_90) step1)
  qNormalize (qMul (qInverse Q_180_Z) step2)

/-- Modelled from the spec: no single source function composes the full
forward orientation pipeline (part_005 applies `transformQuaternion`
then the pitch; the z-flip lives in `transformQuaternionMirrored`), so
the forward pipeline is taken verbatim from the spec's §4.2 order — "a
calibration-derived orientation quaternion, then a fixed +90° pitch
rotation, then a fixed 180° rotation about the vertical axis", with
renormalisation after every composition. -/
def panoToForgeQuaternionSpec (q : Q4 ℝ) : Q4 ℝ :=
  qNormalize (qMul Q_180_Z
    (qNormalize (qMul Q_PITCH_DOWN_90
      (qNormalize (qMul QUAT_TRANSFORM q)))))

/-- Componentwise scalar multiple (proof infrastructure). -/
def qScale (a : ℝ) (q : Q4 ℝ) : Q4 ℝ := ⟨a * q.x, a * q.y, a * q.z, a * q.w⟩

/-- Quaternion conjugate (proof infrastructure). -/
def qConj (q : Q4 ℝ) : Q4 ℝ := ⟨-q.x, -q.y, -q.z, q.w⟩

/-- Squared norm (proof infrastructure). -/
def qNormSq (q : Q4 ℝ) : ℝ := q.x ^ 2 + q.y ^ 2 + q.z ^ 2 + q.w ^ 2

end

/-! ## Boundary guard (`src/utils/camera_transformation`, README)

`BOUNDARY_POINTS`, ray-casting inclusion test, nearest-edge projection
and `clampToBoundary` with the fixed `BOUNDARY_MARGIN = 0.5`. -/

noncomputable section

/-- The hard-coded site boundary polygon. -/
def BOUNDARY_POINTS : List (ℝ × ℝ) :=
  [(797/10, 395/10), (398/10, 398/10), (417/10, 1067/10),
   (632/10, 1072/10), (632/10, 1253/10), (797/10, 1273/10)]

/-- The `(points[i], points[j])` pairs of the ray-casting loop
(`j` is the predecessor index, wrapping). -/
def rayPairs (pts : List (ℝ × ℝ)) : List ((ℝ × ℝ) × (ℝ × ℝ)) :=
  pts.zip (pts.rotate (pts.length - 1))

/-- `isPointInsideBoundary(x, y)` — edge-crossing parity. -/
def isPointInsideBoundary (x y : ℝ) : Bool :=
  (rayPairs BOUNDARY_POINTS).foldl
    (fun inside pq =>
      if (¬ (pq.1.2 > y ↔ pq.2.2 > y)) ∧
          x < (pq.2.1 - pq.1.1) * (y - pq.1.2) / (pq.2.2 - pq.1.2) + pq.1.1
      then !inside else inside)
    false

/-- The `(points[i], points[(i+1) % n])` edge pairs of the
nearest-point loop. -/
def boundaryEdges (pts : List (ℝ × ℝ)) : List ((ℝ × ℝ) × (ℝ × ℝ)) :=
  pts.zip (pts.rotate 1)

/-- The clamped point-to-segment projection of one loop iteration. -/
def edgeClosest (x y : ℝ) (e : (ℝ × ℝ) × (ℝ × ℝ)) : ℝ × ℝ :=
  let dx := e.2.1 - e.1.1
  let dy := e.2.2 - e.1.2
  let len2 := dx * dx + dy * dy
  let t := max 0 (min 1 (((x - e.1.1) * dx + (y - e.1.2) * dy) / len2))
  (e.1.1 + t * dx, e.1.2 + t * dy)

/-- `Math.hypot(x - closestX, y - closestY)` for one edge. -/
def edgeDist (x y : ℝ) (e : (ℝ × ℝ) × (ℝ × ℝ)) : ℝ :=
  Real.sqrt ((x - (edgeClosest x y e).1) ^ 2 + (y - (edgeClosest x y e).2) ^ 2)

/-- One iteration of `findNearestBoundaryPoint`: degenerate edges are
skipped, a strictly smaller distance replaces the running minimum
(`Option.none` models the initial `Infinity`). -/
def nearestStep (x y : ℝ) (st : (ℝ × ℝ) × Option ℝ)
    (e : (ℝ × ℝ) × (ℝ × ℝ)) : (ℝ × ℝ) × Option ℝ :=
  if (e.2.1 - e.1.1) * (e.2.1 - e.1.1) + (e.2.2 - e.1.2) * (e.2.2 - e.1.2) = 0
  then st
  else
    match st.2 with
    | none => (edgeClosest x y e, some (edgeDist x y e))
    | some d =>
      if edgeDist x y e < d then (edgeClosest x y e, some (edgeDist x y e))
      else st

/-- `findNearestBoundaryPoint(x, y)`. -/
def findNearestBoundaryPoint (x y : ℝ) : (ℝ × ℝ) × Option ℝ :=
  (boundaryEdges BOUNDARY_POINTS).foldl (nearestStep x y) ((x, y), none)

/-- `getPolygonCentroid()` — vertex average. -/
def getPolygonCentroid : ℝ × ℝ :=
  (BOUNDARY_POINTS.foldl (fun cx p => cx + p.1) 0 / BOUNDARY_POINTS.length,
   BOUNDARY_POINTS.foldl (fun cy p => cy + p.2) 0 / BOUNDARY_POINTS.length)

/-- Return value of `clampToBoundary` (`originalDistance` is absent on
the inside branch). -/
structure ClampResult where
  x : ℝ
  y : ℝ
  wasClamped : Bool
  originalDistance : Option ℝ

/-- `clampToBoundary(x, y)`: unchanged if inside; otherwise the nearest
boundary point offset inward by `BOUNDARY_MARGIN = 0.5` along the
(normalised, when nonzero) direction toward the centroid. -/
def clampToBoundary (x y : ℝ) : ClampResult :=
  if isPointInsideBoundary x y then ⟨x, y, false, none⟩
  else
    let nearest := findNearestBoundaryPoint x y
    let dirX0 := getPolygonCentroid.1 - nearest.1.1
    let dirY0 := getPolygonCentroid.2 - nearest.1.2
    let dirLen := Real.sqrt (dirX0 ^ 2 + dirY0 ^ 2)
    let dirX := if dirLen > 0 then dirX0 / dirLen else dirX0
    let dirY := if dirLen > 0 then dirY0 / dirLen else dirY0
    ⟨nearest.1.1 + dirX * (1/2), nearest.1.2 + dirY * (1/2), true, nearest.2⟩

end

/-- Boundary polygon vertices, named for the evaluation lemmas. -/
noncomputable def p0 : ℝ × ℝ := (797/10, 395/10)

noncomputable def p1 : ℝ × ℝ := (398/10, 398/10)

noncomputable def p2 : ℝ × ℝ := (417/10, 1067/10)

noncomputable def p3 : ℝ × ℝ := (632/10, 1072/10)

noncomputable def p4 : ℝ × ℝ := (632/10, 1253/10)

noncomputable def p5 : ℝ × ℝ := (797/10, 1273/10)

/-- Invariant of the nearest-point fold: whenever a minimum distance is
stored, it is the distance from the query to the stored point. -/
def nearState (x y : ℝ) (st : (ℝ × ℝ) × Option ℝ) : Prop :=
  ∀ d, st.2 = some d → d = Real.sqrt ((x - st.1.1) ^ 2 + (y - st.1.2) ^ 2)

-- DEFS-END

/-! # Theorems -/

/-- **C10.** The first `update` on a freshly constructed filter returns
the measurement itself (initialisation makes the innovation vanish), and
afterwards the filter is marked initialised.  The nonnegativity
hypotheses on the noise scalars keep the JS arithmetic finite (they hold
for the constructor defaults and every call site in the repository). -/
theorem kalman_first_update_id (pn mn : ℚ) (m : V3 ℚ)
    (hpn : 0 ≤ pn) (hmn : 0 ≤ mn) :
    ((KalmanFilter3D.mk' pn mn).update m).1 = m ∧
    ((KalmanFilter3D.mk' pn mn).update m).2.initd = true := by
  constructor
  · simp [KalmanFilter3D.update, KalmanFilter3D.mk', KalmanFilter3D.init]
  · simp [KalmanFilter3D.update, KalmanFilter3D.mk', KalmanFilter3D.init]

/-- Witness for C10 at the constructor defaults and `m = (1, 2, 3)`. -/
theorem kalman_first_update_id_witness :
    ((KalmanFilter3D.mk' (1/1000) (1/100)).update ⟨1, 2, 3⟩).1 = ⟨1, 2, 3⟩ ∧
    ((KalmanFilter3D.mk' (1/1000) (1/100)).update ⟨1, 2, 3⟩).2.initd = true :=
  kalman_first_update_id (1/1000) (1/100) ⟨1, 2, 3⟩ (by norm_num) (by norm_num)

/-- The array-against-object comparison never succeeds: its first
conjunct compares against the object's index `0`, which is
`undefined`. -/
theorem vectorEqualArrObj_false (v o : V3 ℚ) (t : ℚ) :
    ¬ vectorEqualArrObj v o t :=
  fun h => h.1

/-- Both `smoothSync*` actions always take the accepted branch: the
position half of `changed` is the constantly-false array-against-object
comparison, so `changed` is constantly true. -/
theorem smoothSyncPano_accepts (p : V3 ℚ) (q : Q4 ℚ) (n : ℚ)
    (st : SyncStoreState) :
    smoothSyncPano p q n st
      = { st with targetPanoPose := some ⟨p, q⟩, isAnimating := true
                  syncStartTime := n, source := some .pano
                  lastSyncTime := n, syncCount := st.syncCount + 1 } := by
  rw [smoothSyncPano, if_neg (not_not_intro
    (Or.inl (vectorEqualArrObj_false p st.panoPosition _)))]

theorem smoothSyncForge_accepts (p : V3 ℚ) (q : Q4 ℚ) (n : ℚ)
    (st : SyncStoreState) :
    smoothSyncForge p q n st
      = { st with targetForgePose := some ⟨p, q⟩, isAnimating := true
                  syncStartTime := n, source := some .forge
                  lastSyncTime := n, syncCount := st.syncCount + 1 } := by
  rw [smoothSyncForge, if_neg (not_not_intro
    (Or.inl (vectorEqualArrObj_false p st.forgePosition _)))]

/-- **C3 (code bug).**  `smoothSyncPano` / `smoothSyncForge` are *never*
no-ops, for any report and any store state: the position half of their
`changed` guard calls `vectorEqual(pos, get().panoPosition)` with the
incoming position *array* against the stored `{x, y, z}` *object*, whose
numeric indices are `undefined`, so every componentwise comparison is
`NaN < tolerance` (false), `vectorEqual` is constantly false and
`changed` constantly true.  Every report — including one identical to
the stored pose, which the claim requires to be rejected as a redundant
no-op — is accepted, changes the state, stamps the reporting source as
authority and increments `syncCount`.  The last conjunct exhibits this
at the claim's own no-op case: reporting the initial store's stored pano
position `[0,0,0]` and stored quaternion still bumps `syncCount`
to `1`. -/
theorem smoothSync_never_noop_code_bug (pos : V3 ℚ) (quat : Q4 ℚ)
    (now : ℚ) (s : SyncStoreState) :
    smoothSyncPano pos quat now s ≠ s ∧
    (smoothSyncPano pos quat now s).syncCount = s.syncCount + 1 ∧
    (smoothSyncPano pos quat now s).source = some SyncSource.pano ∧
    smoothSyncForge pos quat now s ≠ s ∧
    (smoothSyncForge pos quat now s).syncCount = s.syncCount + 1 ∧
    (smoothSyncForge pos quat now s).source = some SyncSource.forge ∧
    (smoothSyncPano ⟨0, 0, 0⟩ initialSyncStoreState.panoCam.quat 17
        initialSyncStoreState).syncCount = 1 := by
  refine ⟨?_, ?_, ?_, ?_, ?_, ?_, ?_⟩
  · intro h
    have h2 := congrArg SyncStoreState.syncCount h
    rw [smoothSyncPano_accepts] at h2
    dsimp only at h2
    omega
  · rw [smoothSyncPano_accepts]
  · rw [smoothSyncPano_accepts]
  · intro h
    have h2 := congrArg SyncStoreState.syncCount h
    rw [smoothSyncForge_accepts] at h2
    dsimp only at h2
    omega
  · rw [smoothSyncForge_accepts]
  · rw [smoothSyncForge_accepts]
  · rw [smoothSyncPano_accepts]
    rfl

/-- Evaluation helper: `Real.sqrt a = b` whenever `b ^ 2 = a`, `0 ≤ b`. -/
theorem sqrt_eval {a b : ℝ} (hb : 0 ≤ b) (h : b ^ 2 = a) : Real.sqrt a = b := by
  rw [← h, Real.sqrt_sq hb]

theorem fixGo_length (md : ℝ) (rand : ℕ → V3 ℝ) :
    ∀ (rest : List (V3 ℝ)) (k : ℕ) (accRev : List (V3 ℝ)) (prev : V3 ℝ),
      (fixGo md rand k accRev prev rest).length
        = accRev.length + 1 + rest.length := by
  intro rest
  induction rest with
  | nil => intro k a p; simp [fixGo]
  | cons c t ih =>
    intro k a p
    simp only [fixGo]
    by_cases hlt : ptDist p c < md
    · rw [if_pos hlt, ih]
      simp only [List.length_cons]
      omega
    · rw [if_neg hlt, ih]
      simp only [List.length_cons]
      omega

/-- **C8.**  Both conditioning stages preserve the sample count: for a
non-empty input, `savitzkyGolay` and `fixOverlappingPoints` each return
exactly as many points as they were given. -/
theorem pathConditioner_length_preserved (pts : List (V3 ℝ)) (ws po : ℕ)
    (md : ℝ) (rand : ℕ → V3 ℝ) (h : pts ≠ []) :
    (savitzkyGolay pts ws po).length = pts.length ∧
    (fixOverlappingPoints rand pts md).length = pts.length := by
  constructor
  · rw [savitzkyGolay, if_neg (by simpa using h)]
    simp only [List.length_map, List.length_range]
  · rw [fixOverlappingPoints.eq_def]
    by_cases h2 : pts.length < 2
    · rw [if_pos h2]
    · rw [if_neg h2]
      cases pts with
      | nil => exact absurd rfl h
      | cons p rest =>
        show (fixGo md rand 0 [] p rest).length = _
        rw [fixGo_length]
        simp [Nat.add_comm]

/-- Witness for C8 on a concrete two-point path. -/
theorem pathConditioner_length_preserved_witness :
    (savitzkyGolay [⟨1, 2, 3⟩, ⟨4, 5, 6⟩] 11 3).length = 2 ∧
    (fixOverlappingPoints randZero [⟨1, 2, 3⟩, ⟨4, 5, 6⟩] (1/20)).length = 2 := by
  have h := pathConditioner_length_preserved [⟨1, 2, 3⟩, ⟨4, 5, 6⟩] 11 3 (1/20)
    randZero (by simp)
  simpa using h

theorem overlapCex_dist1 : ptDist (⟨0, 0, 0⟩ : V3 ℝ) ⟨1/25, 0, 0⟩ = 1/25 := by
  unfold ptDist hypot3
  exact sqrt_eval (by norm_num) (by norm_num)

theorem overlapCex_dist2 : ptDist (⟨9/200, 0, 0⟩ : V3 ℝ) ⟨2/25, 0, 0⟩ = 7/200 := by
  unfold ptDist hypot3
  exact sqrt_eval (by norm_num) (by norm_num)

theorem overlapCex_eval : fixOverlappingPoints randZero overlapCexPoints (1/20)
    = [⟨-1/200, 0, 0⟩, ⟨3/80, 0, 0⟩, ⟨7/80, 0, 0⟩] := by
  show fixGo (1/20) randZero 0 [] ⟨0, 0, 0⟩ [⟨1/25, 0, 0⟩, ⟨2/25, 0, 0⟩] = _
  simp only [fixGo, overlapCex_dist1]
  norm_num [overlapCex_dist2]

/-- **C7, counterexample.**  On the three collinear points
`(0,0,0), (0.04,0,0), (0.08,0,0)` with the default threshold `0.05`,
`fixOverlappingPoints` outputs `(-0.005,0,0), (0.0375,0,0), (0.0875,0,0)`:
repairing the second overlap moves the middle point to distance
`0.0425 < 0.05` from the first output point, so the minimum-separation
invariant fails on the output. -/
theorem fixOverlappingPoints_minsep_cex :
    ¬ consecutiveSepOK (1/20)
        (fixOverlappingPoints randZero overlapCexPoints (1/20)) := by
  have h17 : ptDist (⟨-1/200, 0, 0⟩ : V3 ℝ) ⟨3/80, 0, 0⟩ = 17/400 := by
    unfold ptDist hypot3
    exact sqrt_eval (by norm_num) (by norm_num)
  intro h
  rw [overlapCex_eval, consecutiveSepOK] at h
  have := (List.chain'_cons.mp h).1
  rw [h17] at this
  norm_num at this

/-- The two points straddling the midpoint along the unit direction end
up exactly `minDist` apart. -/
theorem ptDist_straddle (p0 p1 : V3 ℝ) (md : ℝ) (hmd : 0 ≤ md)
    (hne : ptDist p0 p1 ≠ 0) :
    ptDist
      ⟨(p0.x + p1.x) / 2 - (p1.x - p0.x) / ptDist p0 p1 * (md / 2),
       (p0.y + p1.y) / 2 - (p1.y - p0.y) / ptDist p0 p1 * (md / 2),
       (p0.z + p1.z) / 2 - (p1.z - p0.z) / ptDist p0 p1 * (md / 2)⟩
      ⟨(p0.x + p1.x) / 2 + (p1.x - p0.x) / ptDist p0 p1 * (md / 2),
       (p0.y + p1.y) / 2 + (p1.y - p0.y) / ptDist p0 p1 * (md / 2),
       (p0.z + p1.z) / 2 + (p1.z - p0.z) / ptDist p0 p1 * (md / 2)⟩ = md := by
  set d := ptDist p0 p1 with hdd
  have hS : d ^ 2
      = (p1.x - p0.x) ^ 2 + (p1.y - p0.y) ^ 2 + (p1.z - p0.z) ^ 2 :=
    Real.sq_sqrt (by positivity)
  unfold ptDist hypot3
  dsimp only
  have harg :
      ((p0.x + p1.x) / 2 + (p1.x - p0.x) / d * (md / 2) -
          ((p0.x + p1.x) / 2 - (p1.x - p0.x) / d * (md / 2))) ^ 2 +
        ((p0.y + p1.y) / 2 + (p1.y - p0.y) / d * (md / 2) -
          ((p0.y + p1.y) / 2 - (p1.y - p0.y) / d * (md / 2))) ^ 2 +
        ((p0.z + p1.z) / 2 + (p1.z - p0.z) / d * (md / 2) -
          ((p0.z + p1.z) / 2 - (p1.z - p0.z) / d * (md / 2))) ^ 2
      = md ^ 2 *
          (((p1.x - p0.x) ^ 2 + (p1.y - p0.y) ^ 2 + (p1.z - p0.z) ^ 2) /
            d ^ 2) := by
    ring
  rw [harg, ← hS, div_self (pow_ne_zero 2 hne), mul_one]
  exact Real.sqrt_sq hmd

/-- **C7, amended.**  The repair makes each replaced pair exactly
`minDist` apart, but replacing the previous output point can pull it
within `minDist` of its own predecessor, so the minimum-separation
invariant is *not* guaranteed for inputs of three or more points
(`fixOverlappingPoints_minsep_cex`).  What does hold: for every
two-point input whose separation is at least the `1e-6` coincidence
cutoff, the output satisfies the minimum-separation invariant. -/
theorem fixOverlappingPoints_pair_minsep (p0 p1 : V3 ℝ) (md : ℝ)
    (rand : ℕ → V3 ℝ) (hmd : 0 < md) (hd : 1/1000000 ≤ ptDist p0 p1) :
    consecutiveSepOK md (fixOverlappingPoints rand [p0, p1] md) := by
  have hpos : 0 < ptDist p0 p1 := lt_of_lt_of_le (by norm_num) hd
  show consecutiveSepOK md (fixGo md rand 0 [] p0 [p1])
  by_cases hlt : ptDist p0 p1 < md
  · simp only [fixGo, if_pos hlt, if_neg (not_lt.mpr hd)]
    simp only [List.reverse_cons, List.reverse_nil, List.nil_append,
      List.singleton_append, consecutiveSepOK, List.chain'_cons,
      List.chain'_singleton, and_true]
    exact le_of_eq (ptDist_straddle p0 p1 md hmd.le (ne_of_gt hpos)).symm
  · simp only [fixGo, if_neg hlt]
    simp only [List.reverse_cons, List.reverse_nil, List.nil_append,
      List.singleton_append, consecutiveSepOK, List.chain'_cons,
      List.chain'_singleton, and_true]
    exact not_lt.mp hlt

/-- Witness for the amended C7 at `(0,0,0), (0.04,0,0)`, threshold `0.05`. -/
theorem fixOverlappingPoints_pair_minsep_witness :
    consecutiveSepOK (1/20)
      (fixOverlappingPoints randZero [⟨0, 0, 0⟩, ⟨1/25, 0, 0⟩] (1/20)) :=
  fixOverlappingPoints_pair_minsep ⟨0, 0, 0⟩ ⟨1/25, 0, 0⟩ (1/20) randZero
    (by norm_num) (by rw [overlapCex_dist1]; norm_num)

theorem Mat3.toMatrix_injective : Function.Injective Mat3.toMatrix := by
  intro A B h
  cases A
  cases B
  simp only [Mat3.mk.injEq]
  refine ⟨congrFun (congrFun h 0) 0, congrFun (congrFun h 0) 1,
    congrFun (congrFun h 0) 2, congrFun (congrFun h 1) 0,
    congrFun (congrFun h 1) 1, congrFun (congrFun h 1) 2,
    congrFun (congrFun h 2) 0, congrFun (congrFun h 2) 1,
    congrFun (congrFun h 2) 2⟩

theorem Mat3.toMatrix_mul (A B : Mat3) :
    (A.mul B).toMatrix = A.toMatrix * B.toMatrix := by
  ext i j
  fin_cases i <;> fin_cases j <;>
    simp [Mat3.mul, Mat3.toMatrix, Matrix.mul_apply, Fin.sum_univ_three]

theorem Mat3.toMatrix_one : Mat3.one.toMatrix = 1 := by
  rw [Matrix.one_fin_three]
  rfl

theorem Mat3.mul_eq_one_comm {A B : Mat3} (h : A.mul B = Mat3.one) :
    B.mul A = Mat3.one := by
  apply Mat3.toMatrix_injective
  rw [Mat3.toMatrix_mul, Mat3.toMatrix_one]
  have h' : A.toMatrix * B.toMatrix = 1 := by
    rw [← Mat3.toMatrix_mul, h, Mat3.toMatrix_one]
  exact Matrix.mul_eq_one_comm.mp h'

theorem Mat3.mul_assoc' (A B C : Mat3) : (A.mul B).mul C = A.mul (B.mul C) := by
  simp only [Mat3.mul, Mat3.mk.injEq]
  repeat' apply And.intro
  all_goals ring

theorem Mat3.one_mul' (A : Mat3) : Mat3.one.mul A = A := by
  cases A
  simp only [Mat3.mul, Mat3.one, Mat3.mk.injEq]
  repeat' apply And.intro
  all_goals ring

theorem Mat3.mul_one' (A : Mat3) : A.mul Mat3.one = A := by
  cases A
  simp only [Mat3.mul, Mat3.one, Mat3.mk.injEq]
  repeat' apply And.intro
  all_goals ring

theorem Mat3.transpose_mul' (A B : Mat3) :
    (A.mul B).transpose = B.transpose.mul A.transpose := by
  simp only [Mat3.mul, Mat3.transpose, Mat3.mk.injEq]
  repeat' apply And.intro
  all_goals ring

theorem Mat3.transpose_transpose' (A : Mat3) : A.transpose.transpose = A := by
  cases A
  simp only [Mat3.transpose]

theorem Mat3.det_mul' (A B : Mat3) : (A.mul B).det = A.det * B.det := by
  simp only [Mat3.mul, Mat3.det]
  ring

theorem Mat3.det_transpose' (A : Mat3) : A.transpose.det = A.det := by
  simp only [Mat3.transpose, Mat3.det]
  ring

theorem Mat3.det_one' : Mat3.one.det = 1 := by
  simp only [Mat3.one, Mat3.det]
  norm_num

theorem Mat3.mul_mul_cancel {A B : Mat3} (h : A.mul B = Mat3.one)
    (X : Mat3) : A.mul (B.mul X) = X := by
  rw [← Mat3.mul_assoc', h, Mat3.one_mul']

theorem sumSq_nonneg (l : List (V3 ℝ)) : 0 ≤ sumSq l := by
  suffices h : ∀ (l : List (V3 ℝ)) (c : ℝ), 0 ≤ c →
      0 ≤ l.foldl (fun sum p => sum + (p.x * p.x + p.y * p.y + p.z * p.z)) c by
    exact h l 0 le_rfl
  intro l
  induction l with
  | nil => intro c hc; simpa using hc
  | cons p t ih =>
    intro c hc
    simp only [List.foldl_cons]
    exact ih _ (by nlinarith [sq_nonneg p.x, sq_nonneg p.y, sq_nonneg p.z])

theorem Mat3.flipCol2_eq (A : Mat3) :
    A.flipCol2 = A.mul (Mat3.diag 1 1 (-1)) := by
  cases A
  simp only [Mat3.flipCol2, Mat3.mul, Mat3.diag, Mat3.mk.injEq]
  repeat' apply And.intro
  all_goals ring

theorem Mat3.flipCol2_det (A : Mat3) : (A.flipCol2).det = -A.det := by
  simp only [Mat3.flipCol2, Mat3.det]
  ring

theorem Mat3.diag_flip_orth :
    (Mat3.diag 1 1 (-1)).transpose.mul (Mat3.diag 1 1 (-1)) = Mat3.one := by
  simp only [Mat3.diag, Mat3.transpose, Mat3.mul, Mat3.one, Mat3.mk.injEq]
  norm_num

/-- `((W·Uᵀ)ᵀ)ᵀ · (W·Uᵀ)ᵀ = 1` for orthogonal `U`, `W`: the shape of
both reflection-correction branches of `calculateCalibration`. -/
theorem Mat3.rot_orthonormal {U W : Mat3}
    (hU : U.transpose.mul U = Mat3.one)
    (hW : W.transpose.mul W = Mat3.one) :
    ((W.mul U.transpose).transpose).transpose.mul
      (W.mul U.transpose).transpose = Mat3.one := by
  rw [Mat3.transpose_transpose', Mat3.transpose_mul',
    Mat3.transpose_transpose']
  simp only [Mat3.mul_assoc']
  rw [Mat3.mul_mul_cancel hU]
  exact Mat3.mul_eq_one_comm hW

/-- Projection lemma: the scale returned by `calculateCalibration` is
the RMS spread ratio of the centered clouds (definitional). -/
theorem calculateCalibration_scale (panoRefs revitRefs : List (V3 ℝ))
    (svdU svdV : Mat3) :
    (calculateCalibration panoRefs revitRefs svdU svdV).scale
      = Real.sqrt
          (sumSq (centeredCloud revitRefs (panoRefs.length : ℝ))
            / (panoRefs.length : ℝ)) /
        Real.sqrt
          (sumSq (centeredCloud (panoRefs.map flipX) (panoRefs.length : ℝ))
            / (panoRefs.length : ℝ)) := rfl

/-- Projection lemma: the rotation returned by `calculateCalibration`
is `(V·Uᵀ)ᵀ`, with `V`'s third column negated when the determinant is
negative (definitional). -/
theorem calculateCalibration_rotation (panoRefs revitRefs : List (V3 ℝ))
    (svdU svdV : Mat3) :
    (calculateCalibration panoRefs revitRefs svdU svdV).rotation
      = if ((svdV.mul svdU.transpose).transpose).det < 0
        then ((svdV.flipCol2).mul svdU.transpose).transpose
        else (svdV.mul svdU.transpose).transpose := rfl

/-- **C5.**  For every correspondence set with `n ≥ 3` pairs of equal
length and every valid SVD factorisation `H = U·diag(Σ)·Vᵀ` of its
cross-covariance (with orthogonal `U`, `V` and strictly positive
singular values — the non-collinearity criterion of the spec),
`computeTransform` succeeds and its rotation is orthonormal with
determinant exactly `+1` (the reflection correction guarantees the
right-handed result), and the returned scale is strictly positive; and
for every correspondence set with orthogonal SVD factors and
nondegenerate (positive) centered spreads, the rotation returned by the
other solver, `calculateCalibration`, is likewise orthonormal with
determinant `+1`, and its scale is strictly positive. -/
theorem computeTransform_rotation_proper (revit pano : List (V3 ℝ))
    (U : Mat3) (S : V3 ℝ) (V : Mat3)
    (pano1 revit1 : List (V3 ℝ)) (U1 V1 : Mat3)
    (hH : computeTransformH revit pano
      = (U.mul (Mat3.diag S.x S.y S.z)).mul V.transpose)
    (hlen : revit.length = pano.length) (h3 : 3 ≤ revit.length)
    (hU : U.transpose.mul U = Mat3.one) (hV : V.transpose.mul V = Mat3.one)
    (hSx : 0 < S.x) (hSy : 0 < S.y) (hSz : 0 < S.z)
    (hU1 : U1.transpose.mul U1 = Mat3.one)
    (hV1 : V1.transpose.mul V1 = Mat3.one)
    (hn1 : 0 < ((pano1.length : ℝ)))
    (hsp : 0 < sumSq (centeredCloud (pano1.map flipX) (pano1.length : ℝ)))
    (hsr : 0 < sumSq (centeredCloud revit1 (pano1.length : ℝ))) :
    (∃ r, computeTransform revit pano U S V = Except.ok r ∧
      r.R.transpose.mul r.R = Mat3.one ∧ r.R.det = 1 ∧ 0 < r.scale) ∧
    ((calculateCalibration pano1 revit1 U1 V1).rotation.transpose.mul
        (calculateCalibration pano1 revit1 U1 V1).rotation = Mat3.one ∧
      (calculateCalibration pano1 revit1 U1 V1).rotation.det = 1 ∧
      0 < (calculateCalibration pano1 revit1 U1 V1).scale) := by
  constructor
  case right =>
    have hU1det : U1.det * U1.det = 1 := by
      have := congrArg Mat3.det hU1
      rwa [Mat3.det_mul', Mat3.det_transpose', Mat3.det_one'] at this
    have hV1det : V1.det * V1.det = 1 := by
      have := congrArg Mat3.det hV1
      rwa [Mat3.det_mul', Mat3.det_transpose', Mat3.det_one'] at this
    have hW : (V1.flipCol2).transpose.mul (V1.flipCol2) = Mat3.one := by
      rw [Mat3.flipCol2_eq, Mat3.transpose_mul']
      simp only [Mat3.mul_assoc']
      rw [Mat3.mul_mul_cancel hV1]
      exact Mat3.diag_flip_orth
    refine ⟨?_, ?_, ?_⟩
    · rw [calculateCalibration_rotation]
      by_cases hdet : ((V1.mul U1.transpose).transpose).det < 0
      · rw [if_pos hdet]
        exact Mat3.rot_orthonormal hU1 hW
      · rw [if_neg hdet]
        exact Mat3.rot_orthonormal hU1 hV1
    · rw [calculateCalibration_rotation]
      by_cases hdet : ((V1.mul U1.transpose).transpose).det < 0
      · rw [if_pos hdet, Mat3.det_transpose', Mat3.det_mul',
          Mat3.det_transpose', Mat3.flipCol2_det]
        have h0 : V1.det * U1.det < 0 := by
          rwa [Mat3.det_transpose', Mat3.det_mul', Mat3.det_transpose']
            at hdet
        have hmin : V1.det * U1.det = -1 := by nlinarith
        linear_combination -hmin
      · rw [if_neg hdet, Mat3.det_transpose', Mat3.det_mul',
          Mat3.det_transpose']
        have h0 : 0 ≤ V1.det * U1.det := by
          have hge := not_lt.mp hdet
          rwa [Mat3.det_transpose', Mat3.det_mul', Mat3.det_transpose']
            at hge
        nlinarith
    · rw [calculateCalibration_scale]
      exact div_pos (Real.sqrt_pos.mpr (div_pos hsr hn1))
        (Real.sqrt_pos.mpr (div_pos hsp hn1))
  case left =>
    have hVV' : V.mul V.transpose = Mat3.one := Mat3.mul_eq_one_comm hV
    have hUdet : U.det * U.det = 1 := by
      have := congrArg Mat3.det hU
      rwa [Mat3.det_mul', Mat3.det_transpose', Mat3.det_one'] at this
    have hVdet : V.det * V.det = 1 := by
      have := congrArg Mat3.det hV
      rwa [Mat3.det_mul', Mat3.det_transpose', Mat3.det_one'] at this
    simp only [computeTransform]
    rw [if_neg (by simp [hlen]; omega), if_neg (by simp)]
    refine ⟨_, rfl, ?_, ?_, ?_⟩
    · -- orthonormality, for either reflection-correction branch
      dsimp only
      have hdiag : (Mat3.diag 1 1 (-1)).transpose.mul (Mat3.diag 1 1 (-1))
          = Mat3.one := by
        simp only [Mat3.diag, Mat3.transpose, Mat3.mul, Mat3.one, Mat3.mk.injEq]
        norm_num
      have hone : Mat3.one.transpose.mul Mat3.one = Mat3.one := by
        simp only [Mat3.transpose, Mat3.mul, Mat3.one, Mat3.mk.injEq]
        norm_num
      by_cases hdet : U.det * V.det < 0
      · rw [if_pos hdet, Mat3.transpose_mul', Mat3.transpose_mul',
          Mat3.transpose_transpose']
        simp only [Mat3.mul_assoc']
        rw [Mat3.mul_mul_cancel hU, Mat3.mul_mul_cancel hdiag]
        exact hVV'
      · rw [if_neg hdet, Mat3.transpose_mul', Mat3.transpose_mul',
          Mat3.transpose_transpose']
        simp only [Mat3.mul_assoc']
        rw [Mat3.mul_mul_cancel hU, Mat3.mul_mul_cancel hone]
        exact hVV'
    · -- determinant +1
      dsimp only
      by_cases hdet : U.det * V.det < 0
      · rw [if_pos hdet, Mat3.det_mul', Mat3.det_mul', Mat3.det_transpose']
        have hd : (Mat3.diag 1 1 (-1)).det = -1 := by
          simp [Mat3.diag, Mat3.det]
        rw [hd]
        have : U.det * V.det = -1 := by nlinarith
        nlinarith
      · rw [if_neg hdet, Mat3.det_mul', Mat3.det_mul', Mat3.det_transpose',
          Mat3.det_one']
        have : U.det * V.det = 1 := by nlinarith
        nlinarith
    · -- positive scale
      dsimp only
      apply div_pos (by linarith)
      nlinarith [sumSq_nonneg (pano.map fun p =>
        (⟨p.x - (centroidOf pano (revit.length : ℝ)).x,
          p.y - (centroidOf pano (revit.length : ℝ)).y,
          p.z - (centroidOf pano (revit.length : ℝ)).z⟩ : V3 ℝ))]

/-- Witness for C5: `computeTransform` on the six-pair set
`c2RevitRefs` / `c5PanoPoints` (`H = diag(4,2,2)`, `U = V = 1`,
`Σ = (4,2,2)`), and `calculateCalibration` on `c1PanoRefs` /
`c2RevitRefs` with the identity SVD factors. -/
theorem computeTransform_rotation_proper_witness :
    (∃ r, computeTransform c2RevitRefs c5PanoPoints Mat3.one
          (⟨4, 2, 2⟩ : V3 ℝ) Mat3.one = Except.ok r ∧
      r.R.transpose.mul r.R = Mat3.one ∧ r.R.det = 1 ∧ 0 < r.scale) ∧
    ((calculateCalibration c1PanoRefs c2RevitRefs Mat3.one
        Mat3.one).rotation.transpose.mul
        (calculateCalibration c1PanoRefs c2RevitRefs Mat3.one
          Mat3.one).rotation = Mat3.one ∧
      (calculateCalibration c1PanoRefs c2RevitRefs Mat3.one
        Mat3.one).rotation.det = 1 ∧
      0 < (calculateCalibration c1PanoRefs c2RevitRefs Mat3.one
        Mat3.one).scale) :=
  computeTransform_rotation_proper c2RevitRefs c5PanoPoints Mat3.one
    ⟨4, 2, 2⟩ Mat3.one c1PanoRefs c2RevitRefs Mat3.one Mat3.one
    (by norm_num [computeTransformH, centroidOf, sumV3, covSum, c2RevitRefs,
      c5PanoPoints, Mat3.diag, Mat3.one, Mat3.transpose, Mat3.mul,
      Mat3.mk.injEq])
    (by norm_num [c2RevitRefs, c5PanoPoints])
    (by norm_num [c2RevitRefs])
    (by norm_num [Mat3.transpose, Mat3.mul, Mat3.one, Mat3.mk.injEq])
    (by norm_num [Mat3.transpose, Mat3.mul, Mat3.one, Mat3.mk.injEq])
    (by norm_num) (by norm_num) (by norm_num)
    (by norm_num [Mat3.transpose, Mat3.mul, Mat3.one, Mat3.mk.injEq])
    (by norm_num [Mat3.transpose, Mat3.mul, Mat3.one, Mat3.mk.injEq])
    (by norm_num [c1PanoRefs])
    (by norm_num [centeredCloud, centroidOf, sumV3, sumSq, flipX,
      c1PanoRefs])
    (by norm_num [centeredCloud, centroidOf, sumV3, sumSq, c2RevitRefs,
      c1PanoRefs])

theorem sqrt_four : Real.sqrt 4 = 2 := sqrt_eval (by norm_num) (by norm_num)

/-- **C6, amended.**  `computeTransform` fails with the
"Need at least 3 matching points" error exactly when the clouds have
mismatched lengths or fewer than 3 pairs; `calculateCalibration`
performs no such validation (see
`calculateCalibration_silent_below_three_cex`). -/
theorem computeTransform_error_iff_insufficient (revit pano : List (V3 ℝ))
    (U : Mat3) (S : V3 ℝ) (V : Mat3) :
    (∃ e, computeTransform revit pano U S V = Except.error e)
      ↔ (revit.length ≠ pano.length ∨ revit.length < 3) := by
  constructor
  · rintro ⟨e, he⟩
    by_contra hc
    simp only [computeTransform, if_neg hc] at he
    rw [if_neg (by simp)] at he
    exact absurd he (by simp)
  · intro h
    exact ⟨"Need at least 3 matching points",
      by simp only [computeTransform, if_pos h]⟩

/-- **C6, counterexample.**  Called on just two correspondence pairs
(with a valid SVD of the resulting rank-1 covariance),
`calculateCalibration` raises no error and silently returns a complete
transform — scale `2`, identity rotation, zero translation — though the
claim demands an `InsufficientPoints` failure for every `n < 3`. -/
theorem calculateCalibration_silent_below_three_cex :
    c6PanoRefs.length < 3 ∧
    calibH c6PanoRefs c6RevitRefs
      = (Mat3.one.mul (Mat3.diag 4 0 0)).mul Mat3.one.transpose ∧
    (calculateCalibration c6PanoRefs c6RevitRefs Mat3.one Mat3.one).scale = 2 ∧
    (calculateCalibration c6PanoRefs c6RevitRefs Mat3.one Mat3.one).rotation
      = Mat3.one ∧
    (calculateCalibration c6PanoRefs c6RevitRefs Mat3.one Mat3.one).translation
      = ⟨0, 0, 0⟩ := by
  refine ⟨by norm_num [c6PanoRefs], ?_, ?_, ?_, ?_⟩ <;>
    norm_num [calibH, calculateCalibration, flipX, centroidOf, sumV3, sumSq,
      covSum, c6PanoRefs, c6RevitRefs, Mat3.diag, Mat3.one, Mat3.transpose,
      Mat3.mul, Mat3.det, Mat3.mk.injEq, V3.mk.injEq, Real.sqrt_one,
      sqrt_four]

theorem c1Calib_eval :
    c1Calib.scale = 1 ∧ c1Calib.rotation = Qrot ∧
    c1Calib.rotationMatrix = Qrot.transpose ∧
    c1Calib.translation = ⟨0, 0, 0⟩ := by
  refine ⟨?_, ?_, ?_, ?_⟩ <;>
    norm_num [c1Calib, calculateCalibration, flipX, centroidOf, sumV3, sumSq,
      c1PanoRefs, c1RevitRefs, Qrot, Mat3.one, Mat3.transpose, Mat3.mul,
      Mat3.det, Mat3.flipCol2, Mat3.mk.injEq, V3.mk.injEq, Real.sqrt_one]

/-- **C1 (code bug).**  On the exact, noise-free six-pair set
`c1PanoRefs → c1RevitRefs` (related by the 90° rotation `Qrot`, scale 1,
translation 0; `H = 2·Qrot`, so `U = Qrot`, `Σ = diag(2,2,2)`, `V = 1`
is a valid SVD with orthogonal factors), the claimed round-trip law
fails: `forgeToPano(panoToForge((1,0,0))) = (-1,0,0)`, two metres from
the original point.  `panoToForge` rotates by `rotation = (V·Uᵀ)ᵀ`,
while `forgeToPano` rotates by `rotationMatrix.transpose()` — the *same*
matrix, not its inverse — so the round trip applies the rotation twice
instead of undoing it. -/
theorem panoForge_roundtrip_code_bug :
    calibH c1PanoRefs c1RevitRefs
      = (Qrot.mul (Mat3.diag 2 2 2)).mul Mat3.one.transpose ∧
    Qrot.transpose.mul Qrot = Mat3.one ∧
    Mat3.one.transpose.mul Mat3.one = Mat3.one ∧
    forgeToPano (panoToForge ⟨1, 0, 0⟩ c1Calib) c1Calib = ⟨-1, 0, 0⟩ ∧
    ¬ ptDist (forgeToPano (panoToForge ⟨1, 0, 0⟩ c1Calib) c1Calib) ⟨1, 0, 0⟩
        ≤ 1/1000000 := by
  obtain ⟨hs, hr, hrm, ht⟩ := c1Calib_eval
  have hfwd : panoToForge ⟨1, 0, 0⟩ c1Calib = ⟨0, -1, 0⟩ := by
    norm_num [panoToForge, hs, hr, ht, Qrot, Mat3.mulVec, V3.mk.injEq]
  have hback : forgeToPano (⟨0, -1, 0⟩ : V3 ℝ) c1Calib = ⟨-1, 0, 0⟩ := by
    norm_num [forgeToPano, hs, hrm, ht, Qrot, Mat3.mulVec, Mat3.transpose,
      V3.mk.injEq]
  refine ⟨?_, ?_, ?_, ?_, ?_⟩
  · norm_num [calibH, flipX, centroidOf, sumV3, covSum, c1PanoRefs,
      c1RevitRefs, Qrot, Mat3.diag, Mat3.one, Mat3.transpose, Mat3.mul,
      Mat3.mk.injEq]
  · norm_num [Qrot, Mat3.one, Mat3.transpose, Mat3.mul, Mat3.mk.injEq]
  · norm_num [Mat3.one, Mat3.transpose, Mat3.mul, Mat3.mk.injEq]
  · rw [hfwd, hback]
  · rw [hfwd, hback]
    have : ptDist (⟨-1, 0, 0⟩ : V3 ℝ) ⟨1, 0, 0⟩ = 2 := by
      unfold ptDist hypot3
      exact sqrt_eval (by norm_num) (by norm_num)
    rw [this]
    norm_num

/-- **C2, counterexample.**  On the anisotropically stretched set
`c1PanoRefs → c2RevitRefs` (`H = diag(4,2,2)` with the valid SVD
`U = V = 1`, `Σ = (4,2,2)`), `calculateCalibration` returns the RMS
ratio `√2` as its scale, whereas the claimed formula
`trace(Σ)/Σ‖sourceCentered‖²` gives `(4+2+2)/6 = 4/3 ≠ √2`. -/
theorem calculateCalibration_scale_not_trace_cex :
    calibH c1PanoRefs c2RevitRefs
      = (Mat3.one.mul (Mat3.diag 4 2 2)).mul Mat3.one.transpose ∧
    Mat3.one.transpose.mul Mat3.one = Mat3.one ∧
    (calculateCalibration c1PanoRefs c2RevitRefs Mat3.one Mat3.one).scale
      = Real.sqrt 2 ∧
    Real.sqrt 2 ≠ (4 + 2 + 2) / (6 : ℝ) := by
  refine ⟨?_, ?_, ?_, ?_⟩
  · norm_num [calibH, flipX, centroidOf, sumV3, covSum, c1PanoRefs,
      c2RevitRefs, Mat3.diag, Mat3.one, Mat3.transpose, Mat3.mul,
      Mat3.mk.injEq]
  · norm_num [Mat3.one, Mat3.transpose, Mat3.mul, Mat3.mk.injEq]
  · rw [calculateCalibration_scale]
    norm_num [centeredCloud, centroidOf, sumV3, sumSq, flipX, c1PanoRefs,
      c2RevitRefs, Real.sqrt_one]
  · intro h
    have h2 : Real.sqrt 2 ^ 2 = ((4 + 2 + 2) / (6 : ℝ)) ^ 2 := by rw [h]
    rw [Real.sq_sqrt (by norm_num)] at h2
    norm_num at h2

/-- **C2, amended.**  The Umeyama solver `computeTransform` computes its
uniform scale as `trace(Σ)` divided by `Σ‖panoCentered‖²` *plus the
`1e-12` regulariser*; the other solver, `calculateCalibration`, uses the
RMS spread ratio instead, which differs from the trace formula in
general (`calculateCalibration_scale_not_trace_cex`). -/
theorem computeTransform_scale_formula (revit pano : List (V3 ℝ))
    (U : Mat3) (S : V3 ℝ) (V : Mat3)
    (hlen : revit.length = pano.length) (h3 : 3 ≤ revit.length) :
    ∃ r, computeTransform revit pano U S V = Except.ok r ∧
      r.scale = (S.x + S.y + S.z) /
        (sumSq (centeredCloud pano (revit.length : ℝ)) + 1/10^12) := by
  simp only [computeTransform]
  rw [if_neg (by simp [hlen]; omega), if_neg (by simp)]
  exact ⟨_, rfl, rfl⟩

/-- Witness for the amended C2 on the six-pair stretched set. -/
theorem computeTransform_scale_formula_witness :
    ∃ r, computeTransform c2RevitRefs c5PanoPoints Mat3.one
          (⟨4, 2, 2⟩ : V3 ℝ) Mat3.one = Except.ok r ∧
      r.scale = ((4 : ℝ) + 2 + 2) /
        (sumSq (centeredCloud c5PanoPoints (c2RevitRefs.length : ℝ)) + 1/10^12) :=
  computeTransform_scale_formula c2RevitRefs c5PanoPoints Mat3.one ⟨4, 2, 2⟩
    Mat3.one (by norm_num [c2RevitRefs, c5PanoPoints])
    (by norm_num [c2RevitRefs])

theorem qNormSq_mul (p q : Q4 ℝ) : qNormSq (qMul p q) = qNormSq p * qNormSq q := by
  simp only [qNormSq, qMul]
  ring

theorem qNormSq_qScale (a : ℝ) (q : Q4 ℝ) :
    qNormSq (qScale a q) = a ^ 2 * qNormSq q := by
  simp only [qNormSq, qScale]
  ring

theorem qNormSq_qConj (q : Q4 ℝ) : qNormSq (qConj q) = qNormSq q := by
  simp only [qNormSq, qConj]
  ring

theorem qMul_qScale_left (a : ℝ) (p q : Q4 ℝ) :
    qMul (qScale a p) q = qScale a (qMul p q) := by
  simp only [qMul, qScale, Q4.mk.injEq]
  exact ⟨by ring, by ring, by ring, by ring⟩

theorem qMul_qScale_right (a : ℝ) (p q : Q4 ℝ) :
    qMul p (qScale a q) = qScale a (qMul p q) := by
  simp only [qMul, qScale, Q4.mk.injEq]
  exact ⟨by ring, by ring, by ring, by ring⟩

theorem qScale_qScale (a b : ℝ) (q : Q4 ℝ) :
    qScale a (qScale b q) = qScale (a * b) q := by
  simp only [qScale, Q4.mk.injEq]
  exact ⟨by ring, by ring, by ring, by ring⟩

theorem qScale_one (q : Q4 ℝ) : qScale 1 q = q := by
  cases q
  simp [qScale]

theorem qNormalize_def (q : Q4 ℝ) :
    qNormalize q = qScale (Real.sqrt (qNormSq q))⁻¹ q := by
  simp only [qNormalize, qScale, qNormSq, Q4.mk.injEq]
  exact ⟨by ring, by ring, by ring, by ring⟩

theorem qNormalize_of_normSq_eq {q : Q4 ℝ} {v : ℝ} (h : qNormSq q = v) :
    qNormalize q = qScale (Real.sqrt v)⁻¹ q := by
  rw [qNormalize_def, h]

theorem qNormalize_unit {q : Q4 ℝ} (h : qNormSq q = 1) : qNormalize q = q := by
  rw [qNormalize_def, h, Real.sqrt_one, inv_one, qScale_one]

theorem qNormalize_qScale_pos (q : Q4 ℝ) {a : ℝ} (ha : 0 < a) :
    qNormalize (qScale a q) = qNormalize q := by
  rw [qNormalize_def, qNormalize_def, qNormSq_qScale,
    Real.sqrt_mul (sq_nonneg a), Real.sqrt_sq ha.le, qScale_qScale]
  congr 1
  rw [mul_inv, mul_comm, ← mul_assoc, mul_inv_cancel₀ ha.ne', one_mul]

theorem qInverse_eq (q : Q4 ℝ) :
    qInverse q = qScale (qNormSq q)⁻¹ (qConj q) := by
  simp only [qInverse, qScale, qConj, qNormSq, Q4.mk.injEq]
  exact ⟨by ring, by ring, by ring, by ring⟩

theorem qInverse_of_unit {q : Q4 ℝ} (h : qNormSq q = 1) :
    qInverse q = qConj q := by
  rw [qInverse_eq, h, inv_one, qScale_one]

theorem QUAT_TRANSFORM_normSq_pos : 0 < qNormSq QUAT_TRANSFORM := by
  norm_num [qNormSq, QUAT_TRANSFORM]

theorem Q_PITCH_normSq : qNormSq Q_PITCH_DOWN_90 = 1 := by
  simp only [qNormSq, Q_PITCH_DOWN_90]
  have hs2 : Real.sqrt (1/2) ^ 2 = 1/2 := Real.sq_sqrt (by norm_num)
  linear_combination 2 * hs2

theorem Q_180_Z_normSq : qNormSq Q_180_Z = 1 := by
  norm_num [qNormSq, Q_180_Z]

/-- The fully reduced round trip at the identity orientation: a positive
rescaling of the rational quaternion product
`z̄ ⊗ p̄ ⊗ t̄ ⊗ z ⊗ p ⊗ t`. -/
theorem forgeToPano_roundtrip_identity_eval :
    forgeToPanoQuaternion (panoToForgeQuaternionSpec ⟨0, 0, 0, 1⟩)
      = qScale (qNormSq QUAT_TRANSFORM)⁻¹
          (qMul (qConj Q_180_Z)
            (qMul (qConj Q_PITCH_DOWN_90)
              (qMul (qConj QUAT_TRANSFORM)
                (qMul Q_180_Z (qMul Q_PITCH_DOWN_90 QUAT_TRANSFORM))))) := by
  have hMpos := QUAT_TRANSFORM_normSq_pos
  have hrootpos : (0 : ℝ) < (Real.sqrt (qNormSq QUAT_TRANSFORM))⁻¹ :=
    inv_pos.mpr (Real.sqrt_pos.mpr hMpos)
  have e1 : qMul QUAT_TRANSFORM ⟨0, 0, 0, 1⟩ = QUAT_TRANSFORM := by
    simp only [qMul, QUAT_TRANSFORM, Q4.mk.injEq]
    norm_num
  have hPQ : qNormSq (qMul Q_PITCH_DOWN_90 QUAT_TRANSFORM)
      = qNormSq QUAT_TRANSFORM := by
    rw [qNormSq_mul, Q_PITCH_normSq, one_mul]
  have hZPQ : qNormSq (qMul Q_180_Z (qMul Q_PITCH_DOWN_90 QUAT_TRANSFORM))
      = qNormSq QUAT_TRANSFORM := by
    rw [qNormSq_mul, Q_180_Z_normSq, one_mul, hPQ]
  have hX1 : qNormSq (qMul (qConj QUAT_TRANSFORM)
      (qMul Q_180_Z (qMul Q_PITCH_DOWN_90 QUAT_TRANSFORM)))
      = qNormSq QUAT_TRANSFORM ^ 2 := by
    rw [qNormSq_mul, qNormSq_qConj, hZPQ]
    ring
  have hX2 : qNormSq (qMul (qConj Q_PITCH_DOWN_90)
      (qMul (qConj QUAT_TRANSFORM)
        (qMul Q_180_Z (qMul Q_PITCH_DOWN_90 QUAT_TRANSFORM))))
      = qNormSq QUAT_TRANSFORM ^ 2 := by
    rw [qNormSq_mul, qNormSq_qConj, Q_PITCH_normSq, one_mul, hX1]
  have n1 : qNormalize (qMul QUAT_TRANSFORM ⟨0, 0, 0, 1⟩)
      = qScale (Real.sqrt (qNormSq QUAT_TRANSFORM))⁻¹ QUAT_TRANSFORM := by
    rw [e1, qNormalize_def]
  have n2 : qNormalize (qMul Q_PITCH_DOWN_90
      (qScale (Real.sqrt (qNormSq QUAT_TRANSFORM))⁻¹ QUAT_TRANSFORM))
      = qScale (Real.sqrt (qNormSq QUAT_TRANSFORM))⁻¹
          (qMul Q_PITCH_DOWN_90 QUAT_TRANSFORM) := by
    rw [qMul_qScale_right, qNormalize_qScale_pos _ hrootpos,
      qNormalize_of_normSq_eq hPQ]
  have n3 : qNormalize (qMul Q_180_Z
      (qScale (Real.sqrt (qNormSq QUAT_TRANSFORM))⁻¹
        (qMul Q_PITCH_DOWN_90 QUAT_TRANSFORM)))
      = qScale (Real.sqrt (qNormSq QUAT_TRANSFORM))⁻¹
          (qMul Q_180_Z (qMul Q_PITCH_DOWN_90 QUAT_TRANSFORM)) := by
    rw [qMul_qScale_right, qNormalize_qScale_pos _ hrootpos,
      qNormalize_of_normSq_eq hZPQ]
  have e2 : panoToForgeQuaternionSpec ⟨0, 0, 0, 1⟩
      = qScale (Real.sqrt (qNormSq QUAT_TRANSFORM))⁻¹
          (qMul Q_180_Z (qMul Q_PITCH_DOWN_90 QUAT_TRANSFORM)) := by
    unfold panoToForgeQuaternionSpec
    rw [n1, n2, n3]
  have r1 : qNormalize (qMul (qInverse QUAT_TRANSFORM)
      (qScale (Real.sqrt (qNormSq QUAT_TRANSFORM))⁻¹
        (qMul Q_180_Z (qMul Q_PITCH_DOWN_90 QUAT_TRANSFORM))))
      = qScale (qNormSq QUAT_TRANSFORM)⁻¹
          (qMul (qConj QUAT_TRANSFORM)
            (qMul Q_180_Z (qMul Q_PITCH_DOWN_90 QUAT_TRANSFORM))) := by
    rw [qInverse_eq, qMul_qScale_left, qMul_qScale_right, qScale_qScale,
      qNormalize_qScale_pos _ (mul_pos (inv_pos.mpr hMpos) hrootpos),
      qNormalize_of_normSq_eq hX1, Real.sqrt_sq hMpos.le]
  have r2 : qNormalize (qMul (qInverse Q_PITCH_DOWN_90)
      (qScale (qNormSq QUAT_TRANSFORM)⁻¹
        (qMul (qConj QUAT_TRANSFORM)
          (qMul Q_180_Z (qMul Q_PITCH_DOWN_90 QUAT_TRANSFORM)))))
      = qScale (qNormSq QUAT_TRANSFORM)⁻¹
          (qMul (qConj Q_PITCH_DOWN_90)
            (qMul (qConj QUAT_TRANSFORM)
              (qMul Q_180_Z (qMul Q_PITCH_DOWN_90 QUAT_TRANSFORM)))) := by
    rw [qInverse_of_unit Q_PITCH_normSq, qMul_qScale_right]
    apply qNormalize_unit
    rw [qNormSq_qScale, hX2]
    field_simp
  have r3 : qNormalize (qMul (qInverse Q_180_Z)
      (qScale (qNormSq QUAT_TRANSFORM)⁻¹
        (qMul (qConj Q_PITCH_DOWN_90)
          (qMul (qConj QUAT_TRANSFORM)
            (qMul Q_180_Z (qMul Q_PITCH_DOWN_90 QUAT_TRANSFORM))))))
      = qScale (qNormSq QUAT_TRANSFORM)⁻¹
          (qMul (qConj Q_180_Z)
            (qMul (qConj Q_PITCH_DOWN_90)
              (qMul (qConj QUAT_TRANSFORM)
                (qMul Q_180_Z (qMul Q_PITCH_DOWN_90 QUAT_TRANSFORM))))) := by
    rw [qInverse_of_unit Q_180_Z_normSq, qMul_qScale_right]
    apply qNormalize_unit
    rw [qNormSq_qScale, qNormSq_mul, qNormSq_qConj, Q_180_Z_normSq, one_mul,
      hX2]
    field_simp
  rw [e2]
  simp only [forgeToPanoQuaternion]
  rw [r1, r2, r3]

/-- **C4 (code bug).**  The reverse orientation pipeline does not invert
the forward one: at the identity orientation, forward (calibration
quaternion, then +90° pitch, then 180° about the vertical axis, per the
spec's order) followed by `forgeToPanoQuaternion` yields a quaternion
with `x`-component `≈ 0.1022`, hence equal to neither `q` nor `-q`.
`forgeToPanoQuaternion` applies the inverse operators in the *same*
order as the forward pipeline (`QT⁻¹` first, pitch next, z-flip last)
instead of the reversed order its own comments ("Full reverse pipeline
… undo …") and the spec require. -/
theorem quaternion_reverse_pipeline_code_bug :
    (forgeToPanoQuaternion (panoToForgeQuaternionSpec ⟨0, 0, 0, 1⟩)).x ≠ 0 ∧
    forgeToPanoQuaternion (panoToForgeQuaternionSpec ⟨0, 0, 0, 1⟩)
      ≠ ⟨0, 0, 0, 1⟩ ∧
    forgeToPanoQuaternion (panoToForgeQuaternionSpec ⟨0, 0, 0, 1⟩)
      ≠ ⟨0, 0, 0, -1⟩ := by
  have hW : (qMul (qConj Q_180_Z)
      (qMul (qConj Q_PITCH_DOWN_90)
        (qMul (qConj QUAT_TRANSFORM)
          (qMul Q_180_Z (qMul Q_PITCH_DOWN_90 QUAT_TRANSFORM))))).x
      = 127699117857007/1250000000000000 := by
    simp only [qMul, qConj, Q_180_Z, Q_PITCH_DOWN_90, QUAT_TRANSFORM]
    linear_combination (127699117857007/625000000000000 : ℝ) *
      Real.sq_sqrt (show (0:ℝ) ≤ 1/2 by norm_num)
  have hx : (forgeToPanoQuaternion (panoToForgeQuaternionSpec ⟨0, 0, 0, 1⟩)).x
      = (qNormSq QUAT_TRANSFORM)⁻¹ * (127699117857007/1250000000000000) := by
    rw [forgeToPano_roundtrip_identity_eval]
    simp only [qScale]
    rw [hW]
  have hxne : (forgeToPanoQuaternion
      (panoToForgeQuaternionSpec ⟨0, 0, 0, 1⟩)).x ≠ 0 := by
    rw [hx]
    exact ne_of_gt (mul_pos (inv_pos.mpr QUAT_TRANSFORM_normSq_pos)
      (by norm_num))
  refine ⟨hxne, fun h => hxne ?_, fun h => hxne ?_⟩ <;> rw [h]

theorem nearestStep_preserves (x y : ℝ) (st : (ℝ × ℝ) × Option ℝ)
    (e : (ℝ × ℝ) × (ℝ × ℝ)) (h : nearState x y st) :
    nearState x y (nearestStep x y st e) := by
  unfold nearestStep
  split
  · exact h
  · match hst : st.2 with
    | none =>
      intro d hd
      simp only [hst] at hd ⊢
      cases hd
      rfl
    | some d0 =>
      simp only [hst]
      split
      · intro d hd
        cases hd
        rfl
      · exact h

theorem nearestFold_preserves (x y : ℝ) (es : List ((ℝ × ℝ) × (ℝ × ℝ))) :
    ∀ st, nearState x y st →
      nearState x y (es.foldl (nearestStep x y) st) := by
  induction es with
  | nil => intro st h; exact h
  | cons e t ih =>
    intro st h
    exact ih _ (nearestStep_preserves x y st e h)

theorem nearestStep_mono (x y : ℝ) (st : (ℝ × ℝ) × Option ℝ)
    (e : (ℝ × ℝ) × (ℝ × ℝ)) (d : ℝ) (h : st.2 = some d) :
    ∃ d', (nearestStep x y st e).2 = some d' ∧ d' ≤ d := by
  unfold nearestStep
  split
  · exact ⟨d, h, le_rfl⟩
  · match hst : st.2 with
    | none => rw [hst] at h; cases h
    | some d0 =>
      rw [hst] at h
      cases h
      simp only [hst]
      split
      · exact ⟨_, rfl, le_of_lt (by assumption)⟩
      · exact ⟨d, hst, le_rfl⟩

theorem nearestFold_mono (x y : ℝ) (es : List ((ℝ × ℝ) × (ℝ × ℝ))) :
    ∀ st d, st.2 = some d →
      ∃ d', (es.foldl (nearestStep x y) st).2 = some d' ∧ d' ≤ d := by
  induction es with
  | nil => intro st d h; exact ⟨d, h, le_rfl⟩
  | cons e t ih =>
    intro st d h
    obtain ⟨d1, h1, hle1⟩ := nearestStep_mono x y st e d h
    obtain ⟨d', h', hle'⟩ := ih _ d1 h1
    exact ⟨d', h', le_trans hle' hle1⟩

theorem nearestStep_candidate (x y : ℝ) (st : (ℝ × ℝ) × Option ℝ)
    (e : (ℝ × ℝ) × (ℝ × ℝ))
    (hlen : (e.2.1 - e.1.1) * (e.2.1 - e.1.1) +
      (e.2.2 - e.1.2) * (e.2.2 - e.1.2) ≠ 0) :
    ∃ d', (nearestStep x y st e).2 = some d' ∧ d' ≤ edgeDist x y e := by
  unfold nearestStep
  rw [if_neg hlen]
  match hst : st.2 with
  | none => simp only [hst]; exact ⟨_, rfl, le_rfl⟩
  | some d0 =>
    simp only [hst]
    split
    · exact ⟨_, rfl, le_rfl⟩
    · exact ⟨d0, hst, le_of_not_lt (by assumption)⟩

theorem nearestFold_le_candidate (x y : ℝ) (es : List ((ℝ × ℝ) × (ℝ × ℝ)))
    (e : (ℝ × ℝ) × (ℝ × ℝ)) (he : e ∈ es)
    (hlen : (e.2.1 - e.1.1) * (e.2.1 - e.1.1) +
      (e.2.2 - e.1.2) * (e.2.2 - e.1.2) ≠ 0) :
    ∀ st, ∃ d', (es.foldl (nearestStep x y) st).2 = some d' ∧
      d' ≤ edgeDist x y e := by
  induction es with
  | nil => cases he
  | cons a t ih =>
    intro st
    rcases List.mem_cons.mp he with rfl | ht
    · obtain ⟨d1, h1, hle1⟩ := nearestStep_candidate x y st e hlen
      obtain ⟨d', h', hle'⟩ := nearestFold_mono x y t _ d1 h1
      exact ⟨d', h', le_trans hle' hle1⟩
    · exact ih ht _

theorem rayPairs_eval : rayPairs BOUNDARY_POINTS
    = [(p0, p5), (p1, p0), (p2, p1), (p3, p2), (p4, p3), (p5, p4)] := by
  norm_num [rayPairs, BOUNDARY_POINTS, List.rotate, p0, p1, p2, p3, p4, p5]

theorem edges_eval : boundaryEdges BOUNDARY_POINTS
    = [(p0, p1), (p1, p2), (p2, p3), (p3, p4), (p4, p5), (p5, p0)] := by
  norm_num [boundaryEdges, BOUNDARY_POINTS, List.rotate, p0, p1, p2, p3, p4, p5]

theorem centroid_eval : getPolygonCentroid = (3673/60, 2729/30) := by
  norm_num [getPolygonCentroid, BOUNDARY_POINTS, List.foldl, Prod.ext_iff]

/-- Points in the concave notch (left of the `p3p4` edge, above the
`p2p3` edge) are outside the boundary polygon. -/
theorem inside_notch_false (cx cy : ℝ) (hx1 : cx < 632/10)
    (hy1 : 1072/10 < cy) (hy2 : cy < 1253/10) :
    isPointInsideBoundary cx cy = false := by
  rw [isPointInsideBoundary, rayPairs_eval]
  simp only [List.foldl, p0, p1, p2, p3, p4, p5]
  rw [if_pos (show (¬ ((395:ℝ)/10 > cy ↔ (1273:ℝ)/10 > cy)) ∧
        cx < ((797:ℝ)/10 - 797/10) * (cy - 395/10) / (1273/10 - 395/10) + 797/10
      from ⟨fun hiff => absurd (hiff.mpr (by linarith)) (by push_neg; linarith),
        by norm_num; linarith⟩)]
  rw [if_neg (show ¬ ((¬ ((398:ℝ)/10 > cy ↔ (395:ℝ)/10 > cy)) ∧
        cx < ((797:ℝ)/10 - 398/10) * (cy - 398/10) / (395/10 - 398/10) + 398/10)
      from fun hc => hc.1 (iff_of_false (by linarith) (by linarith)))]
  rw [if_neg (show ¬ ((¬ ((1067:ℝ)/10 > cy ↔ (398:ℝ)/10 > cy)) ∧
        cx < ((398:ℝ)/10 - 417/10) * (cy - 1067/10) / (398/10 - 1067/10) + 417/10)
      from fun hc => hc.1 (iff_of_false (by linarith) (by linarith)))]
  rw [if_neg (show ¬ ((¬ ((1072:ℝ)/10 > cy ↔ (1067:ℝ)/10 > cy)) ∧
        cx < ((417:ℝ)/10 - 632/10) * (cy - 1072/10) / (1067/10 - 1072/10) + 632/10)
      from fun hc => hc.1 (iff_of_false (by linarith) (by linarith)))]
  rw [if_pos (show (¬ ((1253:ℝ)/10 > cy ↔ (1072:ℝ)/10 > cy)) ∧
        cx < ((632:ℝ)/10 - 632/10) * (cy - 1253/10) / (1072/10 - 1253/10) + 632/10
      from ⟨fun hiff => absurd (hiff.mp (by linarith)) (by push_neg; linarith),
        by norm_num; linarith⟩)]
  rw [if_neg (show ¬ ((¬ ((1273:ℝ)/10 > cy ↔ (1253:ℝ)/10 > cy)) ∧
        cx < ((632:ℝ)/10 - 797/10) * (cy - 1273/10) / (1253/10 - 1273/10) + 797/10)
      from fun hc => hc.1 (iff_of_true (by linarith) (by linarith)))]
  rfl

theorem nearest_eval : findNearestBoundaryPoint 60 (2323/20)
    = ((316/5, 2323/20), some (Real.sqrt (256/25))) := by
  have hd0 : edgeDist 60 (2323/20) (p0, p1) = Real.sqrt (1656408601/283040) := by
    norm_num [edgeDist, edgeClosest, p0, p1]
  have hc0 : edgeClosest 60 (2323/20) (p0, p1) = (4204901/70760, 2805807/70760) := by
    norm_num [edgeClosest, Prod.ext_iff, p0, p1]
  have hd1 : edgeDist 60 (2323/20) (p1, p2) = Real.sqrt (169677/400) := by
    norm_num [edgeDist, edgeClosest, p1, p2]
  have hc1 : edgeClosest 60 (2323/20) (p1, p2) = (417/10, 1067/10) := by
    norm_num [edgeClosest, Prod.ext_iff, p1, p2]
  have hd2 : edgeDist 60 (2323/20) (p2, p3) = Real.sqrt (60233121/740000) := by
    norm_num [edgeDist, edgeClosest, p2, p3]
  have hc2 : edgeClosest 60 (2323/20) (p2, p3) = (2227761/37000, 3963827/37000) := by
    norm_num [edgeClosest, Prod.ext_iff, p2, p3]
  have hd3 : edgeDist 60 (2323/20) (p3, p4) = Real.sqrt (256/25) := by
    norm_num [edgeDist, edgeClosest, p3, p4]
  have hc3 : edgeClosest 60 (2323/20) (p3, p4) = (316/5, 2323/20) := by
    norm_num [edgeClosest, Prod.ext_iff, p3, p4]
  have hd4 : edgeDist 60 (2323/20) (p4, p5) = Real.sqrt (7517/80) := by
    norm_num [edgeDist, edgeClosest, p4, p5]
  have hd5 : edgeDist 60 (2323/20) (p5, p0) = Real.sqrt (38809/100) := by
    norm_num [edgeDist, edgeClosest, p5, p0]
  have hs1 : nearestStep 60 (2323/20) ((60, 2323/20), none) (p0, p1)
      = ((4204901/70760, 2805807/70760), some (Real.sqrt (1656408601/283040))) := by
    simp only [nearestStep]
    rw [if_neg (by norm_num [p0, p1]), hc0, hd0]
  have hs2 : nearestStep 60 (2323/20)
      ((4204901/70760, 2805807/70760), some (Real.sqrt (1656408601/283040))) (p1, p2)
      = ((417/10, 1067/10), some (Real.sqrt (169677/400))) := by
    simp only [nearestStep]
    rw [if_neg (by norm_num [p1, p2]), hd1,
      if_pos (Real.sqrt_lt_sqrt (by norm_num) (by norm_num)), hc1]
  have hs3 : nearestStep 60 (2323/20)
      ((417/10, 1067/10), some (Real.sqrt (169677/400))) (p2, p3)
      = ((2227761/37000, 3963827/37000), some (Real.sqrt (60233121/740000))) := by
    simp only [nearestStep]
    rw [if_neg (by norm_num [p2, p3]), hd2,
      if_pos (Real.sqrt_lt_sqrt (by norm_num) (by norm_num)), hc2]
  have hs4 : nearestStep 60 (2323/20)
      ((2227761/37000, 3963827/37000), some (Real.sqrt (60233121/740000))) (p3, p4)
      = ((316/5, 2323/20), some (Real.sqrt (256/25))) := by
    simp only [nearestStep]
    rw [if_neg (by norm_num [p3, p4]), hd3,
      if_pos (Real.sqrt_lt_sqrt (by norm_num) (by norm_num)), hc3]
  have hs5 : nearestStep 60 (2323/20)
      ((316/5, 2323/20), some (Real.sqrt (256/25))) (p4, p5)
      = ((316/5, 2323/20), some (Real.sqrt (256/25))) := by
    simp only [nearestStep]
    rw [if_neg (by norm_num [p4, p5]), hd4,
      if_neg (not_lt.mpr (Real.sqrt_le_sqrt (by norm_num)))]
  have hs6 : nearestStep 60 (2323/20)
      ((316/5, 2323/20), some (Real.sqrt (256/25))) (p5, p0)
      = ((316/5, 2323/20), some (Real.sqrt (256/25))) := by
    simp only [nearestStep]
    rw [if_neg (by norm_num [p5, p0]), hd5,
      if_neg (not_lt.mpr (Real.sqrt_le_sqrt (by norm_num)))]
  rw [findNearestBoundaryPoint, edges_eval]
  simp only [List.foldl]
  rw [hs1, hs2, hs3, hs4, hs5, hs6]

theorem edgeClosest_vert (cx cy a yl yh : ℝ) (h0 : yl < yh) (h1 : yl ≤ cy)
    (h2 : cy ≤ yh) : edgeClosest cx cy ((a, yl), (a, yh)) = (a, cy) := by
  have hne : yh - yl ≠ 0 := ne_of_gt (by linarith)
  unfold edgeClosest
  dsimp only
  simp only [sub_self, mul_zero, zero_mul, zero_add, add_zero]
  rw [mul_div_mul_right _ _ hne]
  rw [min_eq_right ((div_le_one (by linarith)).mpr (by linarith)),
    max_eq_right (div_nonneg (by linarith) (by linarith)),
    div_mul_cancel₀ _ hne]
  exact Prod.ext rfl (by ring)

theorem edgeDist_p3p4 (cx cy : ℝ) (h1 : (1072:ℝ)/10 ≤ cy)
    (h2 : cy ≤ 1253/10) :
    edgeDist cx cy (p3, p4) = Real.sqrt ((cx - 632/10) ^ 2) := by
  unfold edgeDist
  simp only [p3, p4]
  rw [edgeClosest_vert cx cy _ _ _ (by norm_num) h1 h2]
  norm_num

/-- **C9, counterexample.**  The point `(60, 116.15)` lies in the
concave notch of the boundary; clamping it projects onto the vertical
edge `p3p4` (distance `3.2`) and offsets `0.5` toward the centroid,
which lands *outside* the polygon again (the boundary is non-convex).
Clamping the result a second time therefore moves it once more: the
clamped point is at distance `< 0.04` from the boundary, while any fixed
point of the outside branch must be at distance exactly `0.5` from its
nearest boundary point. -/
theorem clampToBoundary_not_idempotent_cex :
    (clampToBoundary 60 (2323/20)).wasClamped = true ∧
    ¬ ((clampToBoundary (clampToBoundary 60 (2323/20)).x
          (clampToBoundary 60 (2323/20)).y).x
            = (clampToBoundary 60 (2323/20)).x ∧
       (clampToBoundary (clampToBoundary 60 (2323/20)).x
          (clampToBoundary 60 (2323/20)).y).y
            = (clampToBoundary 60 (2323/20)).y) := by
  have hout : isPointInsideBoundary 60 (2323/20) = false :=
    inside_notch_false _ _ (by norm_num) (by norm_num) (by norm_num)
  have hL : ((3673:ℝ)/60 - 316/5) ^ 2 + ((2729:ℝ)/30 - 2323/20) ^ 2
      = 1148641/1800 := by norm_num
  have hc : clampToBoundary 60 (2323/20)
      = ⟨316/5 + (3673/60 - 316/5) / Real.sqrt (1148641/1800) * (1/2),
         2323/20 + (2729/30 - 2323/20) / Real.sqrt (1148641/1800) * (1/2),
         true, some (Real.sqrt (256/25))⟩ := by
    simp only [clampToBoundary]
    rw [if_neg (by simp [hout]), nearest_eval, centroid_eval]
    dsimp only
    rw [hL, if_pos (Real.sqrt_pos.mpr (by norm_num : (0:ℝ) < 1148641/1800)),
      if_pos (Real.sqrt_pos.mpr (by norm_num : (0:ℝ) < 1148641/1800))]
  have hLpos : 0 < Real.sqrt ((1148641:ℝ)/1800) :=
    Real.sqrt_pos.mpr (by norm_num)
  have hL119 : (119:ℝ)/60 < Real.sqrt ((1148641:ℝ)/1800) := by
    rw [show (119:ℝ)/60 = Real.sqrt (((119:ℝ)/60) ^ 2) from
      (Real.sqrt_sq (by norm_num)).symm]
    exact Real.sqrt_lt_sqrt (by norm_num) (by norm_num)
  have hL1511 : (1511:ℝ)/60 < Real.sqrt ((1148641:ℝ)/1800) := by
    rw [show (1511:ℝ)/60 = Real.sqrt (((1511:ℝ)/60) ^ 2) from
      (Real.sqrt_sq (by norm_num)).symm]
    exact Real.sqrt_lt_sqrt (by norm_num) (by norm_num)
  have hrx1 : -(1:ℝ) < (3673/60 - 316/5) / Real.sqrt ((1148641:ℝ)/1800) := by
    rw [show (3673:ℝ)/60 - 316/5 = -(119/60) by norm_num, neg_div]
    have := (div_lt_one hLpos).mpr hL119
    linarith
  have hrx0 : (3673/60 - 316/5) / Real.sqrt ((1148641:ℝ)/1800) < 0 := by
    rw [show (3673:ℝ)/60 - 316/5 = -(119/60) by norm_num, neg_div]
    exact neg_neg_of_pos (div_pos (by norm_num) hLpos)
  have hry1 : -(1:ℝ) < (2729/30 - 2323/20) / Real.sqrt ((1148641:ℝ)/1800) := by
    rw [show (2729:ℝ)/30 - 2323/20 = -(1511/60) by norm_num, neg_div]
    have := (div_lt_one hLpos).mpr hL1511
    linarith
  have hry0 : (2729/30 - 2323/20) / Real.sqrt ((1148641:ℝ)/1800) < 0 := by
    rw [show (2729:ℝ)/30 - 2323/20 = -(1511/60) by norm_num, neg_div]
    exact neg_neg_of_pos (div_pos (by norm_num) hLpos)
  refine ⟨by rw [hc], ?_⟩
  obtain ⟨cx, cy, hcx, hcy⟩ :
      ∃ cx cy, (clampToBoundary 60 (2323/20)).x = cx ∧
        (clampToBoundary 60 (2323/20)).y = cy := ⟨_, _, rfl, rfl⟩
  rw [hcx, hcy]
  have hxv : cx = 316/5 + (3673/60 - 316/5) / Real.sqrt (1148641/1800) * (1/2) := by
    rw [← hcx, hc]
  have hyv : cy = 2323/20 + (2729/30 - 2323/20) / Real.sqrt (1148641/1800) * (1/2) := by
    rw [← hcy, hc]
  have hx1 : cx < 632/10 := by rw [hxv]; linarith
  have hx2 : (627:ℝ)/10 < cx := by rw [hxv]; linarith
  have hy1 : (1072:ℝ)/10 < cy := by rw [hyv]; linarith
  have hy2 : cy < 1253/10 := by rw [hyv]; linarith
  have hout2 : isPointInsideBoundary cx cy = false :=
    inside_notch_false cx cy hx1 hy1 hy2
  obtain ⟨d', hd'eq, hd'le⟩ := nearestFold_le_candidate cx cy
    (boundaryEdges BOUNDARY_POINTS) (p3, p4) (by rw [edges_eval]; simp)
    (by norm_num [p3, p4]) ((cx, cy), none)
  have hinv : nearState cx cy (findNearestBoundaryPoint cx cy) :=
    nearestFold_preserves cx cy (boundaryEdges BOUNDARY_POINTS) ((cx, cy), none)
      (fun d hd => by simp at hd)
  have hdist : d' = Real.sqrt ((cx - (findNearestBoundaryPoint cx cy).1.1) ^ 2
      + (cy - (findNearestBoundaryPoint cx cy).1.2) ^ 2) := hinv d' hd'eq
  have hE3 : edgeDist cx cy (p3, p4) = Real.sqrt ((cx - 632/10) ^ 2) :=
    edgeDist_p3p4 cx cy (le_of_lt hy1) (le_of_lt hy2)
  have hsqrtE3 : Real.sqrt ((cx - 632/10) ^ 2) = 632/10 - cx := by
    rw [show (cx - 632/10) ^ 2 = (632/10 - cx) ^ 2 by ring,
      Real.sqrt_sq (by linarith)]
  have hd'lt : d' < 1/2 := by
    have := hd'le
    rw [hE3, hsqrtE3] at this
    linarith
  intro heq
  obtain ⟨nx, ny, hnd⟩ :
      ∃ nx ny, (findNearestBoundaryPoint cx cy).1 = (nx, ny) := ⟨_, _, rfl⟩
  have hnx : (findNearestBoundaryPoint cx cy).1.1 = nx := by rw [hnd]
  have hny : (findNearestBoundaryPoint cx cy).1.2 = ny := by rw [hnd]
  have hgx : getPolygonCentroid.1 = 3673/60 := by rw [centroid_eval]
  have hgy : getPolygonCentroid.2 = 2729/30 := by rw [centroid_eval]
  rw [hnx, hny] at hdist
  by_cases hdl : Real.sqrt ((getPolygonCentroid.1
      - (findNearestBoundaryPoint cx cy).1.1) ^ 2 +
      (getPolygonCentroid.2 - (findNearestBoundaryPoint cx cy).1.2) ^ 2) > 0
  · have h2x : (clampToBoundary cx cy).x
        = (findNearestBoundaryPoint cx cy).1.1 +
          (getPolygonCentroid.1 - (findNearestBoundaryPoint cx cy).1.1) /
            Real.sqrt ((getPolygonCentroid.1
              - (findNearestBoundaryPoint cx cy).1.1) ^ 2 +
              (getPolygonCentroid.2
                - (findNearestBoundaryPoint cx cy).1.2) ^ 2) * (1/2) := by
      simp only [clampToBoundary]
      rw [if_neg (by simp [hout2]), if_pos hdl, if_pos hdl]
    have h2y : (clampToBoundary cx cy).y
        = (findNearestBoundaryPoint cx cy).1.2 +
          (getPolygonCentroid.2 - (findNearestBoundaryPoint cx cy).1.2) /
            Real.sqrt ((getPolygonCentroid.1
              - (findNearestBoundaryPoint cx cy).1.1) ^ 2 +
              (getPolygonCentroid.2
                - (findNearestBoundaryPoint cx cy).1.2) ^ 2) * (1/2) := by
      simp only [clampToBoundary]
      rw [if_neg (by simp [hout2]), if_pos hdl, if_pos hdl]
    rw [hnx, hny, hgx, hgy] at h2x h2y hdl
    have hS : Real.sqrt ((3673/60 - nx) ^ 2 + (2729/30 - ny) ^ 2) ^ 2
        = (3673/60 - nx) ^ 2 + (2729/30 - ny) ^ 2 :=
      Real.sq_sqrt (by positivity)
    have hxe : nx + (3673/60 - nx) /
        Real.sqrt ((3673/60 - nx) ^ 2 + (2729/30 - ny) ^ 2) * (1/2) = cx :=
      h2x.symm.trans heq.1
    have hye : ny + (2729/30 - ny) /
        Real.sqrt ((3673/60 - nx) ^ 2 + (2729/30 - ny) ^ 2) * (1/2) = cy :=
      h2y.symm.trans heq.2
    have hquart : (cx - nx) ^ 2 + (cy - ny) ^ 2 = 1/4 := by
      have hx' : cx - nx = (3673/60 - nx) /
          Real.sqrt ((3673/60 - nx) ^ 2 + (2729/30 - ny) ^ 2) * (1/2) := by
        linarith only [hxe]
      have hy' : cy - ny = (2729/30 - ny) /
          Real.sqrt ((3673/60 - nx) ^ 2 + (2729/30 - ny) ^ 2) * (1/2) := by
        linarith only [hye]
      rw [hx', hy', div_mul_eq_mul_div, div_mul_eq_mul_div, div_pow, div_pow,
        hS, div_add_div_same, div_eq_iff (ne_of_gt (Real.sqrt_pos.mp hdl))]
      ring
    have hd'half : d' = 1/2 := by
      rw [hdist, hquart]
      exact sqrt_eval (by norm_num) (by norm_num)
    exact absurd hd'half (ne_of_lt hd'lt)
  · have hzero' := le_antisymm (not_lt.mp hdl) (Real.sqrt_nonneg _)
    have hzero : (getPolygonCentroid.1
        - (findNearestBoundaryPoint cx cy).1.1) ^ 2 +
        (getPolygonCentroid.2 - (findNearestBoundaryPoint cx cy).1.2) ^ 2
          = 0 := by
      exact le_antisymm (Real.sqrt_eq_zero'.mp hzero') (by positivity)
    have h2x : (clampToBoundary cx cy).x
        = (findNearestBoundaryPoint cx cy).1.1 +
          (getPolygonCentroid.1
            - (findNearestBoundaryPoint cx cy).1.1) * (1/2) := by
      simp only [clampToBoundary]
      rw [if_neg (by simp [hout2]), if_neg hdl, if_neg hdl]
    rw [hnx, hgx] at h2x
    rw [hnx, hny, hgx, hgy] at hzero
    have hxz : (3673:ℝ)/60 - nx = 0 := by
      have h1 : ((3673:ℝ)/60 - nx) ^ 2 = 0 :=
        le_antisymm (by linarith only [hzero, sq_nonneg ((2729:ℝ)/30 - ny)])
          (sq_nonneg _)
      exact pow_eq_zero_iff (by norm_num) |>.mp h1
    have hcxe : nx + (3673/60 - nx) * (1/2) = cx := h2x.symm.trans heq.1
    have hcc : cx = 3673/60 := by linarith only [hcxe, hxz]
    rw [hcc] at hx2
    norm_num at hx2

/-- **C9, amended.**  `clampToBoundary` returns an already-inside point
unchanged (`wasClamped = false`), and on inside points clamping twice
equals clamping once.  Full idempotence fails: for an outside point near
the concave notch the inward offset lands outside again, so a second
clamp moves the point (`clampToBoundary_not_idempotent_cex`). -/
theorem clampToBoundary_inside_unchanged (x y : ℝ)
    (h : isPointInsideBoundary x y = true) :
    clampToBoundary x y = ⟨x, y, false, none⟩ ∧
    clampToBoundary (clampToBoundary x y).x (clampToBoundary x y).y
      = clampToBoundary x y := by
  have h1 : clampToBoundary x y = ⟨x, y, false, none⟩ := by
    simp only [clampToBoundary]
    rw [if_pos h]
  refine ⟨h1, ?_⟩
  rw [h1]
  exact h1

/-- Witness for the amended C9 at the interior point `(60, 60)`. -/
theorem clampToBoundary_inside_unchanged_witness :
    clampToBoundary 60 60 = ⟨60, 60, false, none⟩ ∧
    clampToBoundary (clampToBoundary 60 60).x (clampToBoundary 60 60).y
      = clampToBoundary 60 60 :=
  clampToBoundary_inside_unchanged 60 60 (by
    rw [isPointInsideBoundary]
    norm_num [rayPairs, BOUNDARY_POINTS, List.rotate, List.foldl])
